import Mathlib

/-!
# ax.armor: narrowing detector and admission policy of the strong typedef

Shallow embedding of `ax.armor.hpp`.  The header is template code: every
function of it is a compile-time predicate over types.  Types are therefore
data here, the traits of the standard library that the header consults are
either computed (fundamental types, whose behaviour the language fixes once
the platform is known) or taken from a `Host` (everything that depends on
declarations outside the header), and the header's own predicates are
functions over those.
-/

namespace ax.armor

/-! ## Host language: fundamental types -/

/-- The fundamental types (std::is_fundamental): void, std::nullptr_t and the
arithmetic types. -/
inductive Fund
  | void | nullptr_t
  | bool | char | signed_char | unsigned_char | wchar_t | char16_t | char32_t
  | short | unsigned_short | int | unsigned | long | unsigned_long
  | long_long | unsigned_long_long
  | float | double | long_double
  deriving DecidableEq, Repr

/-- Trait std::is_floating_point. -/
def Fund.is_floating_point : Fund → Bool
  | .float | .double | .long_double => true
  | _ => false

/-- Trait std::is_integral: bool, the character types and the integer types. -/
def Fund.is_integral : Fund → Bool
  | .void | .nullptr_t | .float | .double | .long_double => false
  | _ => true

/-- Trait std::is_arithmetic. -/
def Fund.is_arithmetic (f : Fund) : Bool := f.is_integral || f.is_floating_point

/-- Floating-point types ordered float, double, long double. -/
def Fund.fp_rank : Fund → Nat
  | .double => 1
  | .long_double => 2
  | _ => 0

/-- What the language leaves to the implementation about the arithmetic types:
the number of bits of a byte, the size of every type in bytes, and whether plain
char and wchar_t are signed.  Integer types are taken to have no padding bits. -/
structure Platform where
  CHAR_BIT : Nat
  sizeof : Fund → Nat
  char_is_signed : Bool
  wchar_t_is_signed : Bool

/-- Bit-width of a type: the number of bits of its object representation. -/
def Platform.bits (P : Platform) (f : Fund) : Nat := P.CHAR_BIT * P.sizeof f

/-- Every arithmetic type occupies at least one bit. -/
def Platform.valid (P : Platform) : Prop :=
  0 < P.CHAR_BIT ∧ ∀ f : Fund, f.is_arithmetic = true → 0 < P.sizeof f

/-- Trait std::is_signed: the signed integer types, the floating-point types,
and char, wchar_t where the platform makes them signed. -/
def Platform.is_signed (P : Platform) : Fund → Bool
  | .char => P.char_is_signed
  | .wchar_t => P.wchar_t_is_signed
  | .signed_char | .short | .int | .long | .long_long => true
  | .float | .double | .long_double => true
  | _ => false

/-- Trait std::is_unsigned: arithmetic and not signed (bool included). -/
def Platform.is_unsigned (P : Platform) (f : Fund) : Bool :=
  f.is_arithmetic && !P.is_signed f

/-- Smallest value of an integral type. -/
def Platform.min_value (P : Platform) (f : Fund) : Int :=
  if f = .bool then 0
  else if P.is_signed f then -(2 ^ (P.bits f - 1))
  else 0

/-- Largest value of an integral type. -/
def Platform.max_value (P : Platform) (f : Fund) : Int :=
  if f = .bool then 1
  else if P.is_signed f then 2 ^ (P.bits f - 1) - 1
  else 2 ^ (P.bits f) - 1

/-- The target integral type can represent all the values of the source one. -/
def Platform.represents_all (P : Platform) (From To : Fund) : Bool :=
  decide (P.min_value To ≤ P.min_value From) && decide (P.max_value From ≤ P.max_value To)

/-- Narrowing conversion of the language ([dcl.init.list]) for a source that is
not a constant expression: floating-point to integer; long double to double or
float, double to float; integer to floating-point; integer to an integer type
that cannot represent all the values of the source. -/
def narrowing_conversion (P : Platform) (From To : Fund) : Bool :=
  if From.is_floating_point && To.is_integral then true
  else if From.is_floating_point && To.is_floating_point then decide (To.fp_rank < From.fp_rank)
  else if From.is_integral && To.is_floating_point then true
  else if From.is_integral && To.is_integral then !P.represents_all From To
  else false

/-- A value of From can direct-initialise a To at all: arithmetic types convert
to one another, std::nullptr_t to itself and (in direct-initialisation) to bool,
void to and from nothing. -/
def direct_initializable (From To : Fund) : Bool :=
  (From.is_arithmetic && To.is_arithmetic) ||
  (decide (From = .nullptr_t) && (decide (To = .nullptr_t) || decide (To = .bool)))

/-- An implicit (standard) conversion sequence from From to To exists. -/
def implicitly_convertible (From To : Fund) : Bool :=
  (From.is_arithmetic && To.is_arithmetic) ||
  (decide (From = .nullptr_t) && decide (To = .nullptr_t))

/-- Outcome of the expression `To{std::declval<From>()}`. -/
inductive Init
  | well_formed
  | no_conversion
  | narrowing
  deriving DecidableEq, Repr

/-- Outcome of `To{std::declval<From>()}` for two fundamental types. -/
def list_init_fundamental (P : Platform) (From To : Fund) : Init :=
  if !direct_initializable From To then .no_conversion
  else if narrowing_conversion P From To then .narrowing
  else .well_formed

/-! ## Types -/

/-- The capability mixins of namespace ax::armor::mixins. -/
inductive Mixin
  | AllowNarrowingConversions
  | AllowImplicitConstructors
  | OperatorArrowAccess
  | OperatorDereferenceAccess
  | OperatorAccess
  | ImplicitConvertible
  | ExplicitConvertible
  | EqualLessComparable
  | Hashable
  | NamedArgument
  deriving DecidableEq, Repr

/-- Reference category of a type: T, T& or T&&. -/
inductive RefKind
  | none
  | lvalue
  | rvalue
  deriving DecidableEq, Repr

/-- Non-reference types: a fundamental type, a wrapper
`named_type<T, Tag, Mixins...>` (its underlying type T may be a reference; its
tag is the `other` type of that number), or any other type (class, pointer,
enumeration, array, const-qualified class, ...), known by a number. -/
inductive Obj
  | fund (f : Fund)
  | other (id : Nat)
  | named_type (T : Obj) (T_ref : RefKind) (Tag : Nat) (Mixins : List Mixin)
  deriving DecidableEq, Repr

/-- A type: a non-reference type, or an lvalue or rvalue reference to one.  The
fundamental types and the wrappers are the cv-unqualified ones; a
const-qualified type is part of this universe only as an `other` type. -/
structure Ty where
  obj : Obj
  ref : RefKind
  deriving DecidableEq, Repr

/-- Trait std::remove_reference. -/
def remove_reference (t : Ty) : Ty := ⟨t.obj, .none⟩

/-- Trait std::add_lvalue_reference: T& (void stays void, U& and U&& become U&). -/
def add_lvalue_reference (t : Ty) : Ty :=
  match t.obj, t.ref with
  | .fund .void, .none => t
  | o, _ => ⟨o, .lvalue⟩

/-- Trait std::add_rvalue_reference: T&& (void stays void, U& stays U&). -/
def add_rvalue_reference (t : Ty) : Ty :=
  match t.obj, t.ref with
  | .fund .void, .none => t
  | o, .lvalue => ⟨o, .lvalue⟩
  | o, _ => ⟨o, .rvalue⟩

/-- The type with the reference form asked for: T, T& or T&&
(std::add_lvalue_reference, std::add_rvalue_reference). -/
def with_reference (r : RefKind) (t : Ty) : Ty :=
  match r with
  | .none => t
  | .lvalue => add_lvalue_reference t
  | .rvalue => add_rvalue_reference t

/-- Trait std::is_fundamental: false for every reference type. -/
def is_fundamental (t : Ty) : Bool :=
  match t.obj, t.ref with
  | .fund _, .none => true
  | _, _ => false

/-- The fundamental type as a type. -/
def Fund.ty (f : Fund) : Ty := ⟨.fund f, .none⟩

/-! ## Host -/

/-- Everything the header asks of the implementation and of declarations that
are not its own.  The fields answer only the questions the language does not
settle from the fundamental types and the header alone. -/
structure Host where
  /-- Sizes and signedness of the arithmetic types. -/
  platform : Platform
  /-- Outcome of `To{std::declval<From>()}`, first argument From, when From and
  To are not both fundamental types. -/
  list_init : Ty → Ty → Init
  /-- Trait std::is_constructible<T, Args...> where T is a reference type or an
  `other` type, or where a fundamental T is built from a value whose conversion
  is up to an `other` type; for a wrapper T and one argument of an `other` class
  type: that class converts to the wrapper by a conversion function of its own.
  Where an `other` T is built from a wrapper over T itself, the answer is for
  the constructors of T that take the wrapper as it is: the way through the
  conversion function of the wrapper and the copy constructor of T is not the
  host's to answer; nor is, for an lvalue reference, the binding to the result
  of the conversion function of a wrapper over the referred type. -/
  is_constructible : Ty → List Ty → Bool
  /-- Trait std::is_assignable<X&, U> in the same cases, with the assignment
  operators of X for its constructors. -/
  is_assignable : Obj → Ty → Bool
  /-- A class whose data member has type T has a defaulted copy constructor
  that is not deleted (for a non-reference T: std::is_copy_constructible<T>). -/
  member_copy_constructible : Ty → Bool
  /-- The same for the defaulted move constructor. -/
  member_move_constructible : Ty → Bool
  /-- The same for the defaulted copy assignment operator. -/
  member_copy_assignable : Ty → Bool
  /-- The same for the defaulted move assignment operator. -/
  member_move_assignable : Ty → Bool
  /-- Trait std::is_convertible<From, To>, first argument From, where To is a
  reference type or an `other` type, or where the conversion is up to an `other`
  source: to a fundamental To by its conversion functions, to a wrapper To by a
  conversion function of its own to the wrapper.  Where From is a wrapper over
  an `other` To, the answer is for the constructors of To that take the wrapper
  as it is. -/
  is_convertible : Ty → Ty → Bool
  /-- A class whose data member has type T and no initialiser has a defaulted
  default constructor that is not deleted: T is not a reference and can be
  default-initialised (a const-qualified T only by a default constructor that
  its class provides). -/
  member_default_constructible : Ty → Bool

/-- Outcome of `To{std::declval<From>()}`. -/
def list_init (H : Host) (From To : Ty) : Init :=
  match From, To with
  | ⟨.fund f, .none⟩, ⟨.fund t, .none⟩ => list_init_fundamental H.platform f t
  | _, _ => H.list_init From To

/-! ## details: the narrowing detector (ax.armor.hpp, lines 34 to 66) -/

/-- Overloads `probe_fundamental_conversion_is_narrowing(int)` and `(...)`,
called with 0: the first is viable exactly when `To{std::declval<From>()}` is
well-formed and then wins (std::false_type); otherwise the ellipsis overload is
the only candidate (std::true_type). -/
def probe_fundamental_conversion_is_narrowing (H : Host) (From To : Ty) : Bool :=
  match list_init H From To with
  | .well_formed => false
  | _ => true

/-- The two types `tag_type` can be: `fundamental_tag` or `int`. -/
inductive tag_type
  | fundamental_tag
  | int
  deriving DecidableEq, Repr

/-- Overloads `probe_conversion_is_narrowing(fundamental_tag)` and `(...)`: an
argument of type fundamental_tag selects the first, whose result is that of the
fundamental probe; an int argument converts to no fundamental_tag and leaves the
ellipsis overload (std::false_type). -/
def probe_conversion_is_narrowing (H : Host) (From To : Ty) : tag_type → Bool
  | .fundamental_tag => probe_fundamental_conversion_is_narrowing H From To
  | .int => false

/-- Member `is_conversion_narrowing<From, To>::value`. -/
def is_conversion_narrowing (H : Host) (From To : Ty) : Bool :=
  let From_ := remove_reference From
  let To_ := remove_reference To
  let types_are_fundamental := is_fundamental From_ && is_fundamental To_
  let tag := if types_are_fundamental then tag_type.fundamental_tag else tag_type.int
  probe_conversion_is_narrowing H From_ To_ tag

/-! ## details: named_type (ax.armor.hpp, lines 69 to 168) -/

/-- The mixin derives from `details::AllowNarrowingConversions_` (line 285). -/
def Mixin.derives_AllowNarrowingConversions_ : Mixin → Bool
  | .AllowNarrowingConversions => true
  | _ => false

/-- The mixin derives from `details::AllowImplicitConstructors_` (line 289). -/
def Mixin.derives_AllowImplicitConstructors_ : Mixin → Bool
  | .AllowImplicitConstructors => true
  | _ => false

/-- The mixin declares the conversion function `operator T&()`, which is not
explicit in either mixin (lines 332 and 342). -/
def Mixin.declares_conversion : Mixin → Bool
  | .ImplicitConvertible | .ExplicitConvertible => true
  | _ => false

/-- Trait `std::is_base_of<AllowNarrowingConversions_, named_type>`: the
wrapper derives from each of its mixins. -/
def is_base_of_AllowNarrowingConversions_ (Mixins : List Mixin) : Bool :=
  Mixins.any Mixin.derives_AllowNarrowingConversions_

/-- Trait `std::is_base_of<AllowImplicitConstructors_, named_type>`. -/
def is_base_of_AllowImplicitConstructors_ (Mixins : List Mixin) : Bool :=
  Mixins.any Mixin.derives_AllowImplicitConstructors_

/-- A value of the wrapper converts to an lvalue of its underlying type: exactly
one base declares `operator T&()` (two would be ambiguous). -/
def has_conversion (Mixins : List Mixin) : Bool :=
  decide ((Mixins.filter Mixin.declares_conversion).length = 1)

/-- Type deduced for the parameter `Head` (or `U`) of a forwarding reference
`Head&&` from an argument `std::declval<A>()`: X& for an lvalue, X otherwise. -/
def deduce (A : Ty) : Ty :=
  match A.ref with
  | .lvalue => A
  | _ => ⟨A.obj, .none⟩

/-- Body of `named_type::is_construction_allowed_from<Head, Tail...>()` (lines
92 to 105); `constructible` is the trait std::is_constructible<T, ...> of the
underlying type T. -/
def construction_allowed (H : Host) (constructible : List Ty → Bool) (T : Ty)
    (Mixins : List Mixin) (Head : Ty) (Tail : List Ty) : Bool :=
  if !constructible (Head :: Tail) then false
  else if Tail.length > 0 then true
  else if is_conversion_narrowing H Head T && !is_base_of_AllowNarrowingConversions_ Mixins
    then false
  else true

/-- Body of `named_type::is_assignment_allowed_from<Head>()` (lines 109 to 118);
`assignable` is the trait std::is_assignable<T&, ...> of the underlying type. -/
def assignment_allowed (H : Host) (assignable : Ty → Bool) (T : Ty)
    (Mixins : List Mixin) (Head : Ty) : Bool :=
  if !assignable Head then false
  else if is_conversion_narrowing H Head T && !is_base_of_AllowNarrowingConversions_ Mixins
    then false
  else true

/-- Trait std::is_constructible<T, Args...>, T given as non-reference type and
reference category.

* A fundamental T: value-initialisation from no argument (not void); from one
  argument by a conversion, which for a wrapper source is its conversion
  function followed by a standard conversion of the direct-initialisation; never
  from two or more.
* A wrapper T, by overload resolution over the constructors that named_type
  declares (lines 123 to 153): the defaulted default constructor (line 123),
  deleted where the member `T value_;` of line 82 cannot be default-initialised;
  the two
  generic constructor templates, of which the enabled one is an exact match;
  the defaulted copy and move constructors, reached by a value of the wrapper
  itself or by a class that converts to the wrapper.
* An `other` T from a wrapper over T: a constructor of T that takes the wrapper
  as it is, or the conversion function of the wrapper, which gives an lvalue of
  T, and then the copy of T.
* An lvalue reference from a wrapper: the host's answer, or the wrapper is one
  over the referred type or a reference to it and has a conversion function,
  to whose result the reference binds.
* Anything else is the host's answer. -/
def std_is_constructible (H : Host) : Obj → RefKind → List Ty → Bool
  | .fund f, .none, [] => decide (f ≠ .void)
  | .fund f, .none, [A] =>
      match A.obj with
      | .fund g => direct_initializable g f
      | .named_type (.fund g) _ _ Mixins => has_conversion Mixins && direct_initializable g f
      | .named_type (.named_type _ _ _ _) _ _ _ => false
      | .named_type (.other _) _ _ Mixins =>
          has_conversion Mixins && H.is_constructible ⟨.fund f, .none⟩ [A]
      | .other _ => H.is_constructible ⟨.fund f, .none⟩ [A]
  | .fund _, .none, _ :: _ :: _ => false
  | .named_type T T_ref _ _, .none, [] => H.member_default_constructible ⟨T, T_ref⟩
  | .named_type T T_ref Tag Mixins, .none, [A] =>
      construction_allowed H (std_is_constructible H T T_ref) ⟨T, T_ref⟩ Mixins (deduce A) [] ||
      (if A.obj = .named_type T T_ref Tag Mixins then
        match A.ref with
        | .lvalue => H.member_copy_constructible ⟨T, T_ref⟩
        | _ => H.member_move_constructible ⟨T, T_ref⟩ || H.member_copy_constructible ⟨T, T_ref⟩
      else
        match A.obj with
        | .named_type S _ _ S_Mixins =>
            has_conversion S_Mixins && decide (S = .named_type T T_ref Tag Mixins) &&
              H.member_copy_constructible ⟨T, T_ref⟩
        | .other _ => H.is_constructible ⟨.named_type T T_ref Tag Mixins, .none⟩ [A]
        | .fund _ => false)
  | .named_type T T_ref _ Mixins, .none, A :: B :: Rest =>
      construction_allowed H (std_is_constructible H T T_ref) ⟨T, T_ref⟩ Mixins
        (deduce A) ((B :: Rest).map deduce)
  | .other n, .none, [A] =>
      match A.obj with
      | .named_type S _ _ S_Mixins =>
          H.is_constructible ⟨.other n, .none⟩ [A] ||
          (has_conversion S_Mixins && decide (S = .other n) &&
            H.is_constructible ⟨.other n, .none⟩ [⟨.other n, .lvalue⟩])
      | _ => H.is_constructible ⟨.other n, .none⟩ [A]
  | o, .lvalue, [A] =>
      match A.obj with
      | .named_type S _ _ S_Mixins =>
          H.is_constructible ⟨o, .lvalue⟩ [A] || (has_conversion S_Mixins && decide (S = o))
      | _ => H.is_constructible ⟨o, .lvalue⟩ [A]
  | o, r, Args => H.is_constructible ⟨o, r⟩ Args

/-- A wrapper type `named_type<T, Tag, Mixins...>`. -/
structure named_type where
  T : Ty
  Tag : Nat
  Mixins : List Mixin
  deriving DecidableEq, Repr

/-- The wrapper as a non-reference type. -/
def named_type.obj (W : named_type) : Obj := .named_type W.T.obj W.T.ref W.Tag W.Mixins

/-- The wrapper as a type. -/
def named_type.ty (W : named_type) : Ty := ⟨W.obj, .none⟩

/-- Member `named_type::is_constructor_implicit<Dummy_>()` (lines 86 to 88). -/
def named_type.is_constructor_implicit (W : named_type) (_Dummy : Ty) : Bool :=
  is_base_of_AllowImplicitConstructors_ W.Mixins

/-- Member `named_type::is_construction_allowed_from<Head, Tail...>()`. -/
def named_type.is_construction_allowed_from (H : Host) (W : named_type)
    (Head : Ty) (Tail : List Ty) : Bool :=
  construction_allowed H (std_is_constructible H W.T.obj W.T.ref) W.T W.Mixins Head Tail

/-- Trait std::is_assignable<X&, U>, X a non-reference type.

* A fundamental X: U converts implicitly to X, a wrapper through its conversion
  function followed by a standard conversion.
* A wrapper X, by overload resolution over the assignment operators that
  named_type declares (lines 126 to 160): the generic `operator=(U&&)`, an exact
  match when enabled; the defaulted copy and move assignment, reached by a
  value of the wrapper itself, or by a value that converts implicitly to the
  wrapper through the implicit generic constructor or a conversion function.
* An `other` X from a wrapper over X: an assignment operator of X that takes
  the wrapper as it is, or the conversion function of the wrapper and then the
  copy assignment of X.
* Anything else is the host's answer. -/
def std_is_assignable (H : Host) : Obj → Ty → Bool
  | .fund f, U =>
      match U.obj with
      | .fund g => implicitly_convertible g f
      | .named_type (.fund g) _ _ Mixins => has_conversion Mixins && implicitly_convertible g f
      | .named_type (.named_type _ _ _ _) _ _ _ => false
      | .named_type (.other _) _ _ Mixins => has_conversion Mixins && H.is_assignable (.fund f) U
      | .other _ => H.is_assignable (.fund f) U
  | .named_type T T_ref Tag Mixins, U =>
      assignment_allowed H (std_is_assignable H T) ⟨T, T_ref⟩ Mixins (deduce U) ||
      (if U.obj = .named_type T T_ref Tag Mixins then
        match U.ref with
        | .lvalue => H.member_copy_assignable ⟨T, T_ref⟩
        | _ => H.member_move_assignable ⟨T, T_ref⟩ || H.member_copy_assignable ⟨T, T_ref⟩
      else
        (is_base_of_AllowImplicitConstructors_ Mixins &&
          construction_allowed H (std_is_constructible H T T_ref) ⟨T, T_ref⟩ Mixins (deduce U) [] &&
          (H.member_move_assignable ⟨T, T_ref⟩ || H.member_copy_assignable ⟨T, T_ref⟩)) ||
        (match U.obj with
        | .named_type S _ _ S_Mixins =>
            has_conversion S_Mixins && decide (S = .named_type T T_ref Tag Mixins) &&
              H.member_copy_assignable ⟨T, T_ref⟩
        | .other _ => H.is_assignable (.named_type T T_ref Tag Mixins) U
        | .fund _ => false))
  | .other n, U =>
      match U.obj with
      | .named_type S _ _ S_Mixins =>
          H.is_assignable (.other n) U ||
          (has_conversion S_Mixins && decide (S = .other n) &&
            H.is_assignable (.other n) ⟨.other n, .lvalue⟩)
      | _ => H.is_assignable (.other n) U

/-- Member `named_type::is_assignment_allowed_from<Head>()`; the trait it reads
is std::is_assignable<T&, Head>, and T& is an lvalue of the referred type
whatever reference T is. -/
def named_type.is_assignment_allowed_from (H : Host) (W : named_type) (Head : Ty) : Bool :=
  assignment_allowed H (std_is_assignable H W.T.obj) W.T W.Mixins Head

/-! ## Values of a wrapper -/

/-- A value of `named_type<T, Tag, Mixins...>`: its only member, `value_`. -/
structure named_type_value (T : Type) where
  value_ : T

/-- The generic constructors (lines 141 to 153): `value_` is initialised from
the forwarded arguments by the initialisation `init` of the underlying type. -/
def named_type_value.construct {Args T : Type} (init : Args → T) (args : Args) :
    named_type_value T :=
  ⟨init args⟩

/-- Member `value()` (lines 163 to 167). -/
def named_type_value.value {T : Type} (w : named_type_value T) : T := w.value_

/-- Constructor `std::string(size_type count, char ch)`: count copies of ch. -/
def std_string_fill (count : Nat) (ch : Char) : String := String.mk (List.replicate count ch)

/-! ## A concrete host -/

/-- The arithmetic types of x86-64 Linux (LP64, as GCC and Clang have them). -/
def lp64 : Platform :=
  Platform.mk 8
    (fun f => match f with
      | .void => 0
      | .nullptr_t => 8
      | .bool | .char | .signed_char | .unsigned_char => 1
      | .short | .unsigned_short | .char16_t => 2
      | .int | .unsigned | .wchar_t | .char32_t | .float => 4
      | .long | .unsigned_long | .long_long | .unsigned_long_long | .double => 8
      | .long_double => 16)
    true true

/-- A member of the type can be copied or moved in a program whose `other`
types are all incomplete: scalars and lvalue references always, rvalue
references when `rvalue_too`, a wrapper exactly when its own member can. -/
def plain_member (rvalue_too : Bool) : Obj → RefKind → Bool
  | _, .lvalue => true
  | _, .rvalue => rvalue_too
  | .fund f, .none => decide (f ≠ .void)
  | .other _, .none => false
  | .named_type T T_ref _ _, .none => plain_member rvalue_too T T_ref

/-- A member of the type can be assigned in such a program: never a reference. -/
def plain_member_assignable : Obj → RefKind → Bool
  | .fund f, .none => decide (f ≠ .void)
  | .named_type T T_ref _ _, .none => plain_member_assignable T T_ref
  | _, _ => false

/-- A member of the type, with no initialiser, can be default-initialised in
such a program: a scalar, or a wrapper whose own member can; never a reference. -/
def plain_member_default : Obj → RefKind → Bool
  | .fund f, .none => decide (f ≠ .void)
  | .named_type T T_ref _ _, .none => plain_member_default T T_ref
  | _, _ => false

/-- The host of a translation unit that declares nothing of its own: it takes
every `other` type for an incomplete struct, as the tags are, to and from which
nothing converts.  Initialising a reference and list-initialising a wrapper are
questions no definition here puts to a host at the inputs used below; this host
answers them in the negative. -/
def Host.bare (P : Platform) : Host :=
  Host.mk P (fun _ _ => .no_conversion) (fun _ _ => false) (fun _ _ => false)
    (fun T => plain_member false T.obj T.ref) (fun T => plain_member true T.obj T.ref)
    (fun T => plain_member_assignable T.obj T.ref) (fun T => plain_member_assignable T.obj T.ref)
    (fun _ _ => false) (fun T => plain_member_default T.obj T.ref)

/-- The bare host on x86-64 Linux. -/
def gcc : Host := Host.bare lp64

/-! ## The types of the test suite (tests.cpp) -/

namespace tests

/-- The wrapper `named_type<int, struct Int_tag>`. -/
def Int : named_type := ⟨Fund.int.ty, 1, []⟩

/-- The wrapper `named_type<unsigned, struct Uint_tag>`. -/
def Uint : named_type := ⟨Fund.unsigned.ty, 2, []⟩

/-- The wrapper `named_type<int, struct Int2_tag>`. -/
def Int2 : named_type := ⟨Fund.int.ty, 3, []⟩

/-- The wrapper `named_type<int, struct Int_conv_tag, mixins::ImplicitConvertible>`. -/
def Int_conv : named_type := ⟨Fund.int.ty, 4, [.ImplicitConvertible]⟩

/-- The wrapper `named_type<int, struct Int_cons_tag, mixins::AllowImplicitConstructors>`. -/
def Int_cons : named_type := ⟨Fund.int.ty, 5, [.AllowImplicitConstructors]⟩

/-- The wrapper `named_type<int, struct Int_narr_tag, mixins::AllowNarrowingConversions>`. -/
def Int_narr : named_type := ⟨Fund.int.ty, 6, [.AllowNarrowingConversions]⟩

/-- The tag `struct Int_tag` of Int, declared and never defined: an `other` type. -/
def Int_tag : Ty := ⟨.other 1, .none⟩

/-- The class std::string, an `other` type: what it can be built from is for
the host to say. -/
def string : Ty := ⟨.other 0, .none⟩

/-- The wrapper `named_type<std::string, struct String_tag, mixins::OperatorAccess,
mixins::ImplicitConvertible>`. -/
def String : named_type := ⟨string, 7, [.OperatorAccess, .ImplicitConvertible]⟩

end tests

/-! ## Implicit and explicit: constructors and conversion functions -/

/-- The two generic constructor templates of named_type: the one of lines 141
to 146, not explicit, and the one of lines 148 to 153, explicit. -/
inductive generic_constructor
  | implicit
  | explicit
  deriving DecidableEq, Repr

/-- The template is enabled for the argument types: both of its
`enable_if_t` conditions hold (lines 142 and 143, lines 149 and 150). -/
def named_type.generic_constructor_enabled (H : Host) (W : named_type)
    (c : generic_constructor) (Head : Ty) (Tail : List Ty) : Bool :=
  match c with
  | .implicit => W.is_constructor_implicit Head && W.is_construction_allowed_from H Head Tail
  | .explicit => !W.is_constructor_implicit Head && W.is_construction_allowed_from H Head Tail

/-- A conversion function to the underlying type, as a mixin declares it: to
`T const&` rather than `T&`, declared `explicit`, const-qualified. -/
structure conversion_function where
  to_const : Bool
  declared_explicit : Bool
  const_qualified : Bool
  deriving DecidableEq, Repr

/-- The conversion functions a mixin declares: ImplicitConvertible `operator
T&()` and `operator T const&() const` (lines 332 and 335), ExplicitConvertible
`operator T&()` and `explicit operator T const&() const` (lines 342 and 345). -/
def Mixin.conversion_functions : Mixin → List conversion_function
  | .ImplicitConvertible => [⟨false, false, false⟩, ⟨true, false, true⟩]
  | .ExplicitConvertible => [⟨false, false, false⟩, ⟨true, true, true⟩]
  | _ => []

/-- The conversion functions a wrapper inherits from its mixins. -/
def conversion_functions : List Mixin → List conversion_function
  | [] => []
  | m :: Mixins => m.conversion_functions ++ conversion_functions Mixins

/-- The function can be called on the wrapper: a const wrapper calls only
const-qualified functions. -/
def conversion_function.callable (object_const : Bool) (c : conversion_function) : Bool :=
  c.const_qualified || !object_const

/-- Of the candidates, those overload resolution prefers: on a wrapper that is
not const, a function that is not const-qualified is a better match than a
const-qualified one. -/
def best_conversions (object_const : Bool) (cs : List conversion_function) :
    List conversion_function :=
  if object_const then cs
  else if (cs.filter (fun c => !c.const_qualified)).isEmpty then cs
  else cs.filter (fun c => !c.const_qualified)

/-- The wrapper, const or not, converts implicitly to its underlying type, as in
`T t = w;`: among the callable conversion functions that are not explicit there
is exactly one best. -/
def converts_implicitly (Mixins : List Mixin) (object_const : Bool) : Bool :=
  decide ((best_conversions object_const
    ((conversion_functions Mixins).filter
      (fun c => c.callable object_const && !c.declared_explicit))).length = 1)

/-- The wrapper converts to its underlying type by an explicit cast, as in
`static_cast<T const&>(w)`: explicit functions are candidates too. -/
def converts_explicitly (Mixins : List Mixin) (object_const : Bool) : Bool :=
  decide ((best_conversions object_const
    ((conversion_functions Mixins).filter
      (fun c => c.callable object_const))).length = 1)

/-- Trait std::is_convertible<From, To>, To given as non-reference type and
reference category: a To can be copy-initialised from a From value.

* A fundamental To: From converts implicitly, a wrapper through its conversion
  function followed by a standard conversion; void converts to void only.
* A wrapper To: From is the wrapper itself, which is copied or moved; or From
  converts by the generic constructor that is not explicit, enabled for From,
  or by a conversion function of a wrapper over To, and the temporary or the
  lvalue so obtained is then moved or copied into the result (the language
  before C++17 asks for that constructor); or an `other` class converts by a
  conversion function of its own.
* An `other` To from a wrapper over To: a constructor of To, not explicit, that
  takes the wrapper as it is, or the conversion function of the wrapper and
  then the copy of To.
* An lvalue reference from a wrapper: the host's answer, or the wrapper is one
  over the referred type or a reference to it and has a conversion function,
  to whose result the reference binds.
* Anything else is the host's answer. -/
def std_is_convertible (H : Host) (From : Ty) : Obj → RefKind → Bool
  | .fund f, .none =>
      match From.obj with
      | .fund g => (decide (g = .void) && decide (f = .void)) || implicitly_convertible g f
      | .named_type (.fund g) _ _ Mixins => has_conversion Mixins && implicitly_convertible g f
      | .named_type (.named_type _ _ _ _) _ _ _ => false
      | .named_type (.other _) _ _ Mixins =>
          has_conversion Mixins && H.is_convertible From ⟨.fund f, .none⟩
      | .other _ => H.is_convertible From ⟨.fund f, .none⟩
  | .named_type T T_ref Tag Mixins, .none =>
      if From.obj = .named_type T T_ref Tag Mixins then
        match From.ref with
        | .lvalue => H.member_copy_constructible ⟨T, T_ref⟩
        | _ => H.member_move_constructible ⟨T, T_ref⟩ || H.member_copy_constructible ⟨T, T_ref⟩
      else
        (is_base_of_AllowImplicitConstructors_ Mixins &&
          construction_allowed H (std_is_constructible H T T_ref) ⟨T, T_ref⟩ Mixins
            (deduce From) [] &&
          (H.member_move_constructible ⟨T, T_ref⟩ || H.member_copy_constructible ⟨T, T_ref⟩)) ||
        (match From.obj with
        | .named_type S _ _ S_Mixins =>
            has_conversion S_Mixins && decide (S = .named_type T T_ref Tag Mixins) &&
              H.member_copy_constructible ⟨T, T_ref⟩
        | .other _ => H.is_convertible From ⟨.named_type T T_ref Tag Mixins, .none⟩
        | .fund _ => false)
  | .other n, .none =>
      match From.obj with
      | .named_type S _ _ S_Mixins =>
          H.is_convertible From ⟨.other n, .none⟩ ||
          (has_conversion S_Mixins && decide (S = .other n) &&
            H.is_convertible ⟨.other n, .lvalue⟩ ⟨.other n, .none⟩)
      | _ => H.is_convertible From ⟨.other n, .none⟩
  | o, .lvalue =>
      match From.obj with
      | .named_type S _ _ S_Mixins =>
          H.is_convertible From ⟨o, .lvalue⟩ || (has_conversion S_Mixins && decide (S = o))
      | _ => H.is_convertible From ⟨o, .lvalue⟩
  | o, r => H.is_convertible From ⟨o, r⟩

/-- Trait std::is_default_constructible<T>. -/
def std_is_default_constructible (H : Host) (T : Ty) : Bool :=
  std_is_constructible H T.obj T.ref []

/-- Trait std::is_copy_constructible<T>: T is constructible from an lvalue of
T (the types here carry no const). -/
def std_is_copy_constructible (H : Host) (T : Ty) : Bool :=
  std_is_constructible H T.obj T.ref [add_lvalue_reference T]

/-- Trait std::is_move_constructible<T>: T is constructible from a `T&&`. -/
def std_is_move_constructible (H : Host) (T : Ty) : Bool :=
  std_is_constructible H T.obj T.ref [add_rvalue_reference T]

/-- Trait std::is_copy_assignable<T>: `T&` is assignable from an lvalue of T. -/
def std_is_copy_assignable (H : Host) (T : Ty) : Bool :=
  std_is_assignable H T.obj (add_lvalue_reference T)

/-- Trait std::is_move_assignable<T>: `T&` is assignable from a `T&&`. -/
def std_is_move_assignable (H : Host) (T : Ty) : Bool :=
  std_is_assignable H T.obj (add_rvalue_reference T)

/-- The wrapper `named_type<U, dummy_tag_<U>>` of named_type_default_test: no
mixin. -/
def plain_wrapper (U : Ty) (Tag : Nat) : named_type := ⟨U, Tag, []⟩

/-- What named_type_default_test takes for granted of the type U it wraps in
V, facts of U that the header does not decide: U is not void; U itself accepts
no V, by construction or assignment; U has no conversion function to V; and a
class with a member of type U can be default-constructed, copied, moved,
copy-assigned and move-assigned by its defaulted members exactly when a U can
(a deleted defaulted move operation gives way to the copy operation). -/
structure ordinary (H : Host) (U : Ty) (V : named_type) : Prop where
  not_void : U.obj ≠ Obj.fund Fund.void
  rejects_wrapper : ∀ r : RefKind, std_is_constructible H U.obj U.ref [⟨V.obj, r⟩] = false
  rejects_wrapper_assigned : ∀ r : RefKind, std_is_assignable H U.obj ⟨V.obj, r⟩ = false
  no_conversion_function : ∀ r : RefKind, H.is_constructible V.ty [⟨U.obj, r⟩] = false
  no_conversion_function_assigned : ∀ r : RefKind, H.is_assignable V.obj ⟨U.obj, r⟩ = false
  member_default : H.member_default_constructible U = std_is_default_constructible H U
  member_copy : H.member_copy_constructible U = std_is_copy_constructible H U
  member_move : (H.member_move_constructible U || H.member_copy_constructible U) =
    std_is_move_constructible H U
  member_copy_assign : H.member_copy_assignable U = std_is_copy_assignable H U
  member_move_assign : (H.member_move_assignable U || H.member_copy_assignable U) =
    std_is_move_assignable H U

/-! ## Values of a wrapper: assignment, access, moves, comparison -/

/-- The generic assignment operator (lines 156 to 160): `value_` is assigned the
forwarded value, converted by the assignment `convert` of the underlying type,
and the operator returns `*this`, the wrapper so changed. -/
def named_type_value.assign {U T : Type} (_w : named_type_value T) (convert : U → T) (v : U) :
    named_type_value T :=
  ⟨convert v⟩

/-- Member `OperatorArrowAccess::operator->()` (lines 298 to 302): the address
of `value()`, so the object the arrow reaches is the wrapped value. -/
def named_type_value.operator_arrow {T : Type} (w : named_type_value T) : T := w.value

/-- Members `OperatorDereferenceAccess::operator*() &` and `operator*() const &`
(lines 308 to 312), on a wrapper that is an lvalue: `value()`. -/
def named_type_value.operator_deref {T : Type} (w : named_type_value T) : T := w.value

/-- The return statement of `operator*() &&` and `operator*() const &&` (lines
314 to 318) is well-formed.  It returns `static_cast<Base*>(this)->value()`, an
lvalue of the referred type since `value()` is called on the lvalue `*this`, as
the return type `T&&`; and that type binds an lvalue only if it is an lvalue
reference, which reference collapsing makes it when T is one. -/
def operator_deref_rvalue_well_formed (T : Ty) : Bool :=
  decide ((add_rvalue_reference T).ref = RefKind.lvalue)

/-- Members `operator*() &&` and `operator*() const &&`, on a wrapper over T that
is an rvalue: the wrapped value where the member is well-formed, and no result
where the program does not compile. -/
def named_type_value.operator_deref_rvalue {T : Type} (T_type : Ty) (w : named_type_value T) :
    Option T :=
  if operator_deref_rvalue_well_formed T_type then some w.value else none

/-- A `std::unique_ptr<T>`: null, or the owner of one object. -/
abbrev unique_ptr (α : Type) : Type := Option α

/-- The function `make_unique` of tests.cpp (lines 9 to 11). -/
def make_unique {α : Type} (a : α) : unique_ptr α := some a

/-- Move construction of a std::unique_ptr: the new pointer owns what the source
owned, and the source is left null.  First the new pointer, then the source. -/
def unique_ptr.move {α : Type} (p : unique_ptr α) : unique_ptr α × unique_ptr α := (p, none)

/-- The defaulted move constructor of named_type (line 128): the member is
move-constructed by `move`, the move constructor of the underlying type.  First
the new wrapper, then the source as it is left. -/
def named_type_value.move {T : Type} (move : T → T × T) (w : named_type_value T) :
    named_type_value T × named_type_value T :=
  (⟨(move w.value_).1⟩, ⟨(move w.value_).2⟩)

/-- A wrapper built by a generic constructor from an rvalue of its underlying
type, `named_type{std::move(t)}`: `value_` is move-constructed from the
forwarded argument.  First the new wrapper, then the argument as it is left. -/
def named_type_value.construct_moved {T : Type} (move : T → T × T) (t : T) :
    named_type_value T × T :=
  (⟨(move t).1⟩, (move t).2)

/-- An object of the underlying type move-constructed from `std::move(w.value())`
(or from `value()` of an rvalue wrapper, lines 164 and 167): first the new
object, then the wrapper as it is left. -/
def named_type_value.move_value {T : Type} (move : T → T × T) (w : named_type_value T) :
    T × named_type_value T :=
  ((move w.value_).1, ⟨(move w.value_).2⟩)

/-- Member `NamedArgument::fwd_t::operator=` (lines 394 to 396), the expression
`Base::arg = val`: `Base{std::forward<U>(val)}`. -/
def NamedArgument_assign {U T : Type} (init : U → T) (val : U) : named_type_value T :=
  named_type_value.construct init val

/-- Member `EqualLessComparable::operator<` (lines 352 to 354); `lt` is
`operator<` of the underlying type. -/
def named_type_value.operator_lt {T : Type} (lt : T → T → Bool) (a b : named_type_value T) :
    Bool :=
  lt a.value b.value

/-- Member `EqualLessComparable::operator==` (lines 356 to 358). -/
def named_type_value.operator_eq {T : Type} (eq : T → T → Bool) (a b : named_type_value T) :
    Bool :=
  eq a.value b.value

/-- Member `EqualLessComparable::operator!=` (lines 360 to 362); `ne` is
`operator!=` of the underlying type. -/
def named_type_value.operator_ne {T : Type} (ne : T → T → Bool) (a b : named_type_value T) :
    Bool :=
  ne a.value b.value

/-- Member `emplace` of a std::map ordered by `lt`, the map given as its
entries in key order: the entry is inserted at its place unless an equivalent
key is there. -/
def map_emplace {K V : Type} (lt : K → K → Bool) (k : K) (v : V) :
    List (K × V) → List (K × V)
  | [] => [(k, v)]
  | e :: rest =>
      if lt k e.1 then (k, v) :: e :: rest
      else if lt e.1 k then e :: map_emplace lt k v rest
      else e :: rest

/-- The map after the entries are emplaced one after the other. -/
def map_of {K V : Type} (lt : K → K → Bool) (entries : List (K × V)) : List (K × V) :=
  entries.foldl (fun m e => map_emplace lt e.1 e.2 m) []

/-- Algorithm `std::equal(first1, last1, first2, pred)`: pred holds of every
element of the first range and the element of the second at its place (the
second range being at least as long). -/
def std_equal {A B : Type} (pred : A → B → Bool) : List A → List B → Bool
  | [], _ => true
  | _ :: _, [] => false
  | a :: as, b :: bs => pred a b && std_equal pred as bs

/-- The expression `Base::arg = std::move(val)` for a val of the underlying
type: `std::forward<U>(val)` passes the rvalue on and `value_` is
move-constructed from it.  First the new wrapper, then val as it is left. -/
def NamedArgument_assign_moved {T : Type} (move : T → T × T) (val : T) :
    named_type_value T × T :=
  named_type_value.construct_moved move val

/-! ## Pointers and enumerations -/

namespace tests

/-- The pointer type `void*`, on which the header runs named_type_default_test
(line 262): an `other` type. -/
def void_pointer : Ty := ⟨.other 101, .none⟩

/-- The unscoped enumeration `My_enum` of tests.cpp (line 53): an `other` type. -/
def My_enum : Ty := ⟨.other 102, .none⟩

end tests

/-! ## Hashing -/

/-- Member `Hashable::Hash::operator()` (lines 369 to 373):
`std::hash<T>::operator()(obj.value())`; `hash` is `std::hash<T>`. -/
def named_type_value.Hash {T : Type} (hash : T → Nat) (obj : named_type_value T) : Nat :=
  hash obj.value

/-- One bucket of a std::unordered_map with key equality `eq` after `emplace`:
the entry is put in unless the bucket holds an equal key. -/
def bucket_emplace {K V : Type} (eq : K → K → Bool) (k : K) (v : V) (bucket : List (K × V)) :
    List (K × V) :=
  if bucket.any (fun e => eq k e.1) then bucket else (k, v) :: bucket

/-- The buckets with `f` applied to the bucket at an index. -/
def modify_bucket {E : Type} (f : List E → List E) : Nat → List (List E) → List (List E)
  | _, [] => []
  | 0, b :: bs => f b :: bs
  | i + 1, b :: bs => b :: modify_bucket f i bs

/-- Member `emplace` of a std::unordered_map with hasher `hash` and key equality
`eq`, the map given as its buckets: the entry goes to the bucket of its hash
value.  The number of buckets stays as it is. -/
def unordered_map_emplace {K V : Type} (hash : K → Nat) (eq : K → K → Bool) (k : K) (v : V)
    (buckets : List (List (K × V))) : List (List (K × V)) :=
  modify_bucket (bucket_emplace eq k v) (hash k % buckets.length) buckets

/-- The unordered map of n buckets after the entries are emplaced one after the
other. -/
def unordered_map_of {K V : Type} (hash : K → Nat) (eq : K → K → Bool) (n : Nat)
    (entries : List (K × V)) : List (List (K × V)) :=
  entries.foldl (fun m e => unordered_map_emplace hash eq e.1 e.2 m) (List.replicate n [])

/-- Member `find` of a std::unordered_map: the entry of the bucket of the hash
value whose key is equal, if there is one. -/
def unordered_map_find {K V : Type} (hash : K → Nat) (eq : K → K → Bool) (k : K)
    (buckets : List (List (K × V))) : Option (K × V) :=
  (buckets.getD (hash k % buckets.length) []).find? (fun e => eq k e.1)

/-- The entries of an unordered map as an iteration from `begin()` to `end()`
goes through them, bucket after bucket. -/
def unordered_map_elements {K V : Type} (buckets : List (List (K × V))) : List (K × V) :=
  buckets.foldr (fun b rest => b ++ rest) []

/-! ## What a type accepts by itself, and a class that cannot be copied -/

/-- The type is the `other` type 104, not a reference, which
`Host.with_const_Pod` takes for the type `const Pod`, where
`class Pod { int i; };`. -/
def is_const_Pod (T : Ty) : Bool := decide (T = ⟨.other 104, .none⟩)

/-- The type is `const Pod` or a reference to it. -/
def is_const_Pod_value (T : Ty) : Bool := decide (T.obj = .other 104)

/-- The host of a translation unit that declares one class, `class Pod { int i; };`,
and uses the type `const Pod`, the `other` type 104: a `const Pod` is
value-initialised from no argument and copied from a `const Pod`, and is never
assigned; a class with a member `const Pod value_;` is copied and moved (by the
copy of the member), is not assigned, and has no default constructor, Pod
having none of its own that would initialise the const member.  For the rest
the host is the bare one. -/
def Host.with_const_Pod (P : Platform) : Host :=
  Host.mk P
    (fun From To => if is_const_Pod To && is_const_Pod_value From then .well_formed
      else .no_conversion)
    (fun T Args => is_const_Pod T && match Args with
      | [] => true
      | [A] => is_const_Pod_value A
      | _ => false)
    (fun _ _ => false)
    (fun T => is_const_Pod T || plain_member false T.obj T.ref)
    (fun T => is_const_Pod T || plain_member true T.obj T.ref)
    (fun T => plain_member_assignable T.obj T.ref)
    (fun T => plain_member_assignable T.obj T.ref)
    (fun From To => is_const_Pod To && is_const_Pod_value From)
    (fun T => plain_member_default T.obj T.ref)

/-! ## Lemmas on the detector -/

theorem is_conversion_narrowing_remove_reference (H : Host) (From To : Ty) :
    is_conversion_narrowing H From To =
      is_conversion_narrowing H (remove_reference From) (remove_reference To) := by
  simp [is_conversion_narrowing, remove_reference]

theorem is_conversion_narrowing_of_not_fundamental (H : Host) (From To : Ty)
    (h : (is_fundamental (remove_reference From) && is_fundamental (remove_reference To)) = false) :
    is_conversion_narrowing H From To = false := by
  simp only [is_conversion_narrowing, h]
  rfl

theorem is_conversion_narrowing_of_fundamental (H : Host) (From To : Ty)
    (h : (is_fundamental (remove_reference From) && is_fundamental (remove_reference To)) = true) :
    is_conversion_narrowing H From To =
      probe_fundamental_conversion_is_narrowing H (remove_reference From) (remove_reference To) := by
  simp only [is_conversion_narrowing, h]
  rfl

theorem is_conversion_narrowing_fund (H : Host) (f t : Fund) :
    is_conversion_narrowing H f.ty t.ty =
      !decide (list_init_fundamental H.platform f t = Init.well_formed) := by
  rw [is_conversion_narrowing_of_fundamental H _ _ (by rfl)]
  simp only [probe_fundamental_conversion_is_narrowing, list_init, remove_reference, Fund.ty]
  cases list_init_fundamental H.platform f t <;> rfl

theorem list_init_fundamental_of_arithmetic (P : Platform) (f t : Fund)
    (hf : f.is_arithmetic = true) (ht : t.is_arithmetic = true) :
    list_init_fundamental P f t =
      if narrowing_conversion P f t then Init.narrowing else Init.well_formed := by
  simp [list_init_fundamental, direct_initializable, hf, ht]

theorem narrowing_of_arithmetic (H : Host) (f t : Fund)
    (hf : f.is_arithmetic = true) (ht : t.is_arithmetic = true) :
    is_conversion_narrowing H f.ty t.ty = narrowing_conversion H.platform f t := by
  rw [is_conversion_narrowing_fund, list_init_fundamental_of_arithmetic _ _ _ hf ht]
  cases narrowing_conversion H.platform f t <;> simp

theorem narrowing_conversion_iff (P : Platform) (f t : Fund)
    (hf : f.is_arithmetic = true) (ht : t.is_arithmetic = true) :
    narrowing_conversion P f t = true ↔
      (f.is_floating_point = true ∧ t.is_integral = true) ∨
      (f.is_integral = true ∧ t.is_floating_point = true) ∨
      (f.is_floating_point = true ∧ t.is_floating_point = true ∧ t.fp_rank < f.fp_rank) ∨
      (f.is_integral = true ∧ t.is_integral = true ∧ P.represents_all f t = false) := by
  cases f <;> cases t <;> simp [narrowing_conversion, Fund.is_floating_point, Fund.is_integral, Fund.fp_rank, Fund.is_arithmetic] at hf ht ⊢

theorem lp64_valid : lp64.valid := by
  refine ⟨by decide, ?_⟩
  intro f hf
  cases f <;> first | decide | exact absurd hf (by decide)

/-! ## Claims on the detector -/

/-- C1: for two arithmetic types the detector is true exactly when the
list-initialisation of a To from a From value is narrowing: floating-point to
integer, integer to floating-point, a floating-point type to a lower-ranked one,
or an integer type to an integer type that cannot represent every value of the
source.  On x86-64 Linux, where int64_t is long and int32_t is int: true for
int64_t to int32_t, int to char, long long to unsigned short, int to double;
false for int to int, char to int, int32_t to int64_t, unsigned short to long
long. -/
theorem C1_detector_is_the_narrowing_rule :
    (∀ (H : Host) (From To : Fund), From.is_arithmetic = true → To.is_arithmetic = true →
      (is_conversion_narrowing H From.ty To.ty = true ↔
          list_init H From.ty To.ty = Init.narrowing) ∧
      (is_conversion_narrowing H From.ty To.ty = true ↔
        (From.is_floating_point = true ∧ To.is_integral = true) ∨
        (From.is_integral = true ∧ To.is_floating_point = true) ∨
        (From.is_floating_point = true ∧ To.is_floating_point = true ∧
          To.fp_rank < From.fp_rank) ∨
        (From.is_integral = true ∧ To.is_integral = true ∧
          H.platform.represents_all From To = false))) ∧
    is_conversion_narrowing gcc Fund.long.ty Fund.int.ty = true ∧
    is_conversion_narrowing gcc Fund.int.ty Fund.char.ty = true ∧
    is_conversion_narrowing gcc Fund.long_long.ty Fund.unsigned_short.ty = true ∧
    is_conversion_narrowing gcc Fund.int.ty Fund.double.ty = true ∧
    is_conversion_narrowing gcc Fund.int.ty Fund.int.ty = false ∧
    is_conversion_narrowing gcc Fund.char.ty Fund.int.ty = false ∧
    is_conversion_narrowing gcc Fund.int.ty Fund.long.ty = false ∧
    is_conversion_narrowing gcc Fund.unsigned_short.ty Fund.long_long.ty = false := by
  refine ⟨?_, by decide, by decide, by decide, by decide, by decide, by decide, by decide,
    by decide⟩
  intro H From To hF hT
  constructor
  · rw [narrowing_of_arithmetic H From To hF hT]
    have h : list_init H From.ty To.ty = list_init_fundamental H.platform From To := rfl
    rw [h, list_init_fundamental_of_arithmetic _ _ _ hF hT]
    cases narrowing_conversion H.platform From To <;> simp
  · rw [narrowing_of_arithmetic H From To hF hT]
    exact narrowing_conversion_iff H.platform From To hF hT

theorem C1_detector_is_the_narrowing_rule_witness :
    Fund.long_long.is_arithmetic = true ∧ Fund.unsigned_short.is_arithmetic = true ∧
    ((is_conversion_narrowing gcc Fund.long_long.ty Fund.unsigned_short.ty = true ↔
          list_init gcc Fund.long_long.ty Fund.unsigned_short.ty = Init.narrowing) ∧
      (is_conversion_narrowing gcc Fund.long_long.ty Fund.unsigned_short.ty = true ↔
        (Fund.long_long.is_floating_point = true ∧ Fund.unsigned_short.is_integral = true) ∨
        (Fund.long_long.is_integral = true ∧ Fund.unsigned_short.is_floating_point = true) ∨
        (Fund.long_long.is_floating_point = true ∧ Fund.unsigned_short.is_floating_point = true ∧
          Fund.unsigned_short.fp_rank < Fund.long_long.fp_rank) ∨
        (Fund.long_long.is_integral = true ∧ Fund.unsigned_short.is_integral = true ∧
          gcc.platform.represents_all Fund.long_long Fund.unsigned_short = false))) :=
  ⟨by decide, by decide,
    C1_detector_is_the_narrowing_rule.1 gcc Fund.long_long Fund.unsigned_short (by decide)
      (by decide)⟩

/-- C3, as stated, fails: no std::nullptr_t converts to an int, the
initialisation `int{std::declval<std::nullptr_t>()}` is ill-formed for want of
a conversion, and the detector reports true. -/
theorem C3_counterexample_nullptr_to_int :
    list_init gcc (remove_reference Fund.nullptr_t.ty) (remove_reference Fund.int.ty)
        = Init.no_conversion ∧
    is_conversion_narrowing gcc Fund.nullptr_t.ty Fund.int.ty = true := by
  decide

/-- C3, amended: when a To cannot be brace-initialised from a From value for want
of a conversion, the detector is false if at least one of the two types (after
reference stripping) is not fundamental, and true if both are fundamental; so
double to std::string and std::string to double are false on every host, and
std::nullptr_t to int is true. -/
theorem C3_no_conversion_reported_by_fundamentality :
    (∀ (H : Host) (From To : Ty),
      list_init H (remove_reference From) (remove_reference To) = Init.no_conversion →
      is_conversion_narrowing H From To =
        (is_fundamental (remove_reference From) && is_fundamental (remove_reference To))) ∧
    (∀ H : Host, is_conversion_narrowing H Fund.double.ty tests.string = false) ∧
    (∀ H : Host, is_conversion_narrowing H tests.string Fund.double.ty = false) ∧
    (∀ H : Host, is_conversion_narrowing H Fund.nullptr_t.ty Fund.int.ty = true) := by
  refine ⟨?_, fun H => rfl, fun H => rfl, fun H => ?_⟩
  · intro H From To h
    cases hf : (is_fundamental (remove_reference From) && is_fundamental (remove_reference To))
    · exact is_conversion_narrowing_of_not_fundamental H From To hf
    · rw [is_conversion_narrowing_of_fundamental H From To hf]
      simp [probe_fundamental_conversion_is_narrowing, h]
  · rw [is_conversion_narrowing_fund]
    rfl

theorem C3_no_conversion_reported_by_fundamentality_witness :
    list_init gcc (remove_reference tests.Int_tag) (remove_reference Fund.int.ty)
        = Init.no_conversion ∧
    is_conversion_narrowing gcc tests.Int_tag Fund.int.ty =
      (is_fundamental (remove_reference tests.Int_tag) &&
        is_fundamental (remove_reference Fund.int.ty)) :=
  ⟨by decide,
    C3_no_conversion_reported_by_fundamentality.1 gcc tests.Int_tag Fund.int.ty (by decide)⟩

/-- C4: when at least one of From and To is, after reference stripping, not a
fundamental type, the detector is false, whatever the host says about
initialising a To from a From. -/
theorem C4_false_unless_both_fundamental (H : Host) (From To : Ty)
    (h : is_fundamental (remove_reference From) = false ∨
      is_fundamental (remove_reference To) = false) :
    is_conversion_narrowing H From To = false := by
  apply is_conversion_narrowing_of_not_fundamental
  rcases h with h | h <;> simp [h]

theorem C4_false_unless_both_fundamental_witness :
    (is_fundamental (remove_reference tests.Int_conv.ty) = false ∨
      is_fundamental (remove_reference Fund.int.ty) = false) ∧
    is_conversion_narrowing gcc tests.Int_conv.ty Fund.int.ty = false :=
  ⟨Or.inl (by decide),
    C4_false_unless_both_fundamental gcc tests.Int_conv.ty Fund.int.ty (Or.inl (by decide))⟩

theorem remove_reference_with_reference (r : RefKind) (t : Ty) :
    remove_reference (with_reference r t) = remove_reference t := by
  obtain ⟨o, q⟩ := t
  cases r <;> simp only [with_reference, add_lvalue_reference, add_rvalue_reference] <;>
    split <;> rfl

/-- C10: the detector gives the same value on any reference forms of From and To
(From, From& or From&&; To, To& or To&&) as on From and To; char& to int& is
false like char to int, and int& to char& is true like int to char. -/
theorem C10_reference_forms_do_not_matter :
    (∀ (H : Host) (From To : Ty) (r₁ r₂ : RefKind),
      is_conversion_narrowing H (with_reference r₁ From) (with_reference r₂ To) =
        is_conversion_narrowing H From To) ∧
    is_conversion_narrowing gcc (with_reference .lvalue Fund.char.ty)
      (with_reference .lvalue Fund.int.ty) = false ∧
    is_conversion_narrowing gcc Fund.char.ty Fund.int.ty = false ∧
    is_conversion_narrowing gcc (with_reference .lvalue Fund.int.ty)
      (with_reference .lvalue Fund.char.ty) = true ∧
    is_conversion_narrowing gcc Fund.int.ty Fund.char.ty = true := by
  refine ⟨?_, by decide, by decide, by decide, by decide⟩
  intro H From To r₁ r₂
  rw [is_conversion_narrowing_remove_reference, remove_reference_with_reference,
    remove_reference_with_reference, ← is_conversion_narrowing_remove_reference]

theorem is_arithmetic_of_is_signed (P : Platform) (f : Fund) (h : P.is_signed f = true) :
    f.is_arithmetic = true := by
  cases f <;> first | rfl | exact absurd h (by simp [Platform.is_signed])

theorem is_integral_of_is_unsigned (P : Platform) (f : Fund) (h : P.is_unsigned f = true) :
    f.is_integral = true := by
  cases f <;> first | rfl | exact absurd h (by simp [Platform.is_unsigned, Platform.is_signed, Fund.is_arithmetic, Fund.is_integral, Fund.is_floating_point])

theorem is_integral_or_floating_point (f : Fund) (h : f.is_arithmetic = true) :
    (f.is_integral = true ∧ f.is_floating_point = false) ∨
      (f.is_integral = false ∧ f.is_floating_point = true) := by
  cases f <;> first | exact Or.inl ⟨rfl, rfl⟩ | exact Or.inr ⟨rfl, rfl⟩ | exact absurd h (by decide)

theorem bits_pos (P : Platform) (hP : P.valid) (f : Fund) (h : f.is_arithmetic = true) :
    0 < P.bits f :=
  Nat.mul_pos hP.1 (hP.2 f h)

theorem two_pow_pred_lt (w : Nat) (hw : 0 < w) : (2 : ℤ) ^ (w - 1) < 2 ^ w := by
  obtain ⟨k, rfl⟩ : ∃ k, w = k + 1 := ⟨w - 1, by omega⟩
  have h : (0 : ℤ) < 2 ^ k := by positivity
  simp only [Nat.add_sub_cancel, pow_succ]
  linarith

/-- Between a signed and an unsigned integer type of one width, other than
bool, neither represents all the values of the other. -/
theorem represents_all_signed_unsigned (P : Platform) (A B : Fund)
    (hA : A ≠ Fund.bool) (hB : B ≠ Fund.bool) (hw : 0 < P.bits A) (hbits : P.bits A = P.bits B)
    (hsA : P.is_signed A = true) (hsB : P.is_signed B = false) :
    P.represents_all A B = false ∧ P.represents_all B A = false := by
  have h1 : (0 : ℤ) < 2 ^ (P.bits A - 1) := by positivity
  have h2 := two_pow_pred_lt (P.bits A) hw
  simp only [Platform.represents_all, Platform.min_value, Platform.max_value, hA, hB, hsA, hsB,
    ← hbits, if_true, if_false, Bool.false_eq_true, Bool.and_eq_false_iff, decide_eq_false_iff_not]
  constructor
  · left; omega
  · right; omega

theorem narrowing_signed_unsigned (H : Host) (A B : Fund) (hP : H.platform.valid)
    (hA : A ≠ Fund.bool) (hB : B ≠ Fund.bool) (hbits : H.platform.bits A = H.platform.bits B)
    (hsA : H.platform.is_signed A = true) (huB : H.platform.is_unsigned B = true) :
    is_conversion_narrowing H A.ty B.ty = true ∧ is_conversion_narrowing H B.ty A.ty = true := by
  have haA := is_arithmetic_of_is_signed _ A hsA
  have hiB := is_integral_of_is_unsigned _ B huB
  have haB : B.is_arithmetic = true := by simp [Fund.is_arithmetic, hiB]
  have hsB : H.platform.is_signed B = false := by
    simpa [Platform.is_unsigned, haB] using huB
  have hfB : B.is_floating_point = false := by
    rcases is_integral_or_floating_point B haB with h | h
    · exact h.2
    · rw [h.1] at hiB; exact absurd hiB (by decide)
  rw [narrowing_of_arithmetic H A B haA haB, narrowing_of_arithmetic H B A haB haA]
  rcases is_integral_or_floating_point A haA with h | h
  · have hr := represents_all_signed_unsigned H.platform A B hA hB
      (bits_pos _ hP A haA) hbits hsA hsB
    simp [narrowing_conversion, h.1, h.2, hiB, hfB, hr.1, hr.2]
  · simp [narrowing_conversion, h.1, h.2, hiB, hfB]

/-- C9, as stated, fails: on x86-64 Linux bool and signed char are both one byte
of 8 bits, bool is unsigned and signed char is signed, and a signed char holds
both values of a bool, so bool to signed char is not narrowing. -/
theorem C9_counterexample_bool_signed_char :
    gcc.platform.bits Fund.bool = gcc.platform.bits Fund.signed_char ∧
    gcc.platform.is_unsigned Fund.bool = true ∧
    gcc.platform.is_signed Fund.signed_char = true ∧
    is_conversion_narrowing gcc Fund.bool.ty Fund.signed_char.ty = false := by
  decide

/-- C9, amended: for two fundamental types other than bool that have equal
bit-width and different signedness, the detector is true in both directions
(int and unsigned, for one). -/
theorem C9_equal_width_different_signedness (H : Host) (A B : Fund)
    (hP : H.platform.valid) (hA : A ≠ Fund.bool) (hB : B ≠ Fund.bool)
    (hbits : H.platform.bits A = H.platform.bits B)
    (hsign : (H.platform.is_signed A = true ∧ H.platform.is_unsigned B = true) ∨
      (H.platform.is_unsigned A = true ∧ H.platform.is_signed B = true)) :
    is_conversion_narrowing H A.ty B.ty = true ∧ is_conversion_narrowing H B.ty A.ty = true := by
  rcases hsign with ⟨hs, hu⟩ | ⟨hu, hs⟩
  · exact narrowing_signed_unsigned H A B hP hA hB hbits hs hu
  · exact (narrowing_signed_unsigned H B A hP hB hA hbits.symm hs hu).symm

theorem C9_equal_width_different_signedness_witness :
    gcc.platform.valid ∧ Fund.int ≠ Fund.bool ∧ Fund.unsigned ≠ Fund.bool ∧
    gcc.platform.bits Fund.int = gcc.platform.bits Fund.unsigned ∧
    ((gcc.platform.is_signed Fund.int = true ∧ gcc.platform.is_unsigned Fund.unsigned = true) ∨
      (gcc.platform.is_unsigned Fund.int = true ∧ gcc.platform.is_signed Fund.unsigned = true)) ∧
    is_conversion_narrowing gcc Fund.int.ty Fund.unsigned.ty = true ∧
    is_conversion_narrowing gcc Fund.unsigned.ty Fund.int.ty = true :=
  ⟨lp64_valid, by decide, by decide, by decide, Or.inl (by decide),
    C9_equal_width_different_signedness gcc Fund.int Fund.unsigned lp64_valid (by decide)
      (by decide) (by decide) (Or.inl (by decide))⟩

/-! ## Lemmas on the admission predicates -/

theorem is_base_of_AllowNarrowingConversions__iff (Mixins : List Mixin) :
    is_base_of_AllowNarrowingConversions_ Mixins = true ↔
      Mixin.AllowNarrowingConversions ∈ Mixins := by
  simp only [is_base_of_AllowNarrowingConversions_, List.any_eq_true]
  constructor
  · rintro ⟨m, hm, h⟩
    cases m <;> first | exact hm | exact absurd h (by decide)
  · intro h
    exact ⟨_, h, rfl⟩

theorem construction_allowed_single (H : Host) (c : List Ty → Bool) (T : Ty)
    (Mixins : List Mixin) (Head : Ty) :
    construction_allowed H c T Mixins Head [] =
      (c [Head] && (!is_conversion_narrowing H Head T ||
        is_base_of_AllowNarrowingConversions_ Mixins)) := by
  cases h1 : c [Head] <;> cases h2 : is_conversion_narrowing H Head T <;>
    cases h3 : is_base_of_AllowNarrowingConversions_ Mixins <;>
    simp [construction_allowed, h1, h2, h3]

theorem construction_allowed_multi (H : Host) (c : List Ty → Bool) (T : Ty)
    (Mixins : List Mixin) (Head A : Ty) (Rest : List Ty) :
    construction_allowed H c T Mixins Head (A :: Rest) = c (Head :: A :: Rest) := by
  cases h1 : c (Head :: A :: Rest) <;> simp [construction_allowed, h1]

theorem assignment_allowed_eq (H : Host) (a : Ty → Bool) (T : Ty)
    (Mixins : List Mixin) (Head : Ty) :
    assignment_allowed H a T Mixins Head =
      (a Head && (!is_conversion_narrowing H Head T ||
        is_base_of_AllowNarrowingConversions_ Mixins)) := by
  cases h1 : a Head <;> cases h2 : is_conversion_narrowing H Head T <;>
    cases h3 : is_base_of_AllowNarrowingConversions_ Mixins <;>
    simp [assignment_allowed, h1, h2, h3]

/-! ## Claims on the admission predicates -/

/-- C2: the generic constructor is offered for a single argument of type Head
exactly when T is constructible from Head and either the detector is false for
Head to T or the wrapper carries AllowNarrowingConversions.  On x86-64 Linux
`named_type<int, Int_tag>` admits, and is constructible from, int, short, signed
char and unsigned char, and neither admits nor is constructible from unsigned
and unsigned long long. -/
theorem C2_single_argument_construction :
    (∀ (H : Host) (W : named_type) (Head : Ty),
      W.is_construction_allowed_from H Head [] = true ↔
        std_is_constructible H W.T.obj W.T.ref [Head] = true ∧
        (is_conversion_narrowing H Head W.T = false ∨
          Mixin.AllowNarrowingConversions ∈ W.Mixins)) ∧
    (∀ f ∈ [Fund.int, Fund.short, Fund.signed_char, Fund.unsigned_char],
      tests.Int.is_construction_allowed_from gcc f.ty [] = true ∧
      std_is_constructible gcc tests.Int.obj .none [f.ty] = true) ∧
    (∀ f ∈ [Fund.unsigned, Fund.unsigned_long_long],
      tests.Int.is_construction_allowed_from gcc f.ty [] = false ∧
      std_is_constructible gcc tests.Int.obj .none [f.ty] = false) := by
  refine ⟨?_, by decide, by decide⟩
  intro H W Head
  rw [named_type.is_construction_allowed_from, construction_allowed_single,
    ← is_base_of_AllowNarrowingConversions__iff]
  cases std_is_constructible H W.T.obj W.T.ref [Head] <;>
    cases is_conversion_narrowing H Head W.T <;>
    cases is_base_of_AllowNarrowingConversions_ W.Mixins <;> simp

theorem C2_single_argument_construction_witness :
    Fund.short ∈ [Fund.int, Fund.short, Fund.signed_char, Fund.unsigned_char] ∧
    tests.Int.is_construction_allowed_from gcc Fund.short.ty [] = true ∧
    std_is_constructible gcc tests.Int.obj .none [Fund.short.ty] = true :=
  ⟨by decide, C2_single_argument_construction.2.1 Fund.short (by decide)⟩

/-- C5: the generic assignment operator is offered for a source of type U
exactly when T& is assignable from U and either the detector is false for U to T
or the wrapper carries AllowNarrowingConversions.  On x86-64 Linux
`named_type<int, Int_tag>&` admits, and is assignable from, int, short, signed
char and unsigned char, and neither admits nor is assignable from unsigned and
unsigned long long. -/
theorem C5_assignment :
    (∀ (H : Host) (W : named_type) (U : Ty),
      W.is_assignment_allowed_from H U = true ↔
        std_is_assignable H W.T.obj U = true ∧
        (is_conversion_narrowing H U W.T = false ∨
          Mixin.AllowNarrowingConversions ∈ W.Mixins)) ∧
    (∀ f ∈ [Fund.int, Fund.short, Fund.signed_char, Fund.unsigned_char],
      tests.Int.is_assignment_allowed_from gcc f.ty = true ∧
      std_is_assignable gcc tests.Int.obj f.ty = true) ∧
    (∀ f ∈ [Fund.unsigned, Fund.unsigned_long_long],
      tests.Int.is_assignment_allowed_from gcc f.ty = false ∧
      std_is_assignable gcc tests.Int.obj f.ty = false) := by
  refine ⟨?_, by decide, by decide⟩
  intro H W U
  rw [named_type.is_assignment_allowed_from, assignment_allowed_eq,
    ← is_base_of_AllowNarrowingConversions__iff]
  cases std_is_assignable H W.T.obj U <;>
    cases is_conversion_narrowing H U W.T <;>
    cases is_base_of_AllowNarrowingConversions_ W.Mixins <;> simp

theorem C5_assignment_witness :
    Fund.unsigned ∈ [Fund.unsigned, Fund.unsigned_long_long] ∧
    tests.Int.is_assignment_allowed_from gcc Fund.unsigned.ty = false ∧
    std_is_assignable gcc tests.Int.obj Fund.unsigned.ty = false :=
  ⟨by decide, C5_assignment.2.2 Fund.unsigned (by decide)⟩

/-- C6: for an argument list of two or more values the generic constructor is
offered exactly when T is constructible from the list, whatever the detector
says of the first argument and whatever the mixins; the wrapper of std::string
admits (int, char), and is constructible from it, exactly when std::string is,
and built from (4, the character #) it holds the string of four #. -/
theorem C6_multi_argument_construction :
    (∀ (H : Host) (W : named_type) (Head A : Ty) (Rest : List Ty),
      W.is_construction_allowed_from H Head (A :: Rest) =
        std_is_constructible H W.T.obj W.T.ref (Head :: A :: Rest)) ∧
    (∀ H : Host,
      tests.String.is_construction_allowed_from H Fund.int.ty [Fund.char.ty] =
        H.is_constructible tests.string [Fund.int.ty, Fund.char.ty] ∧
      std_is_constructible H tests.String.obj .none [Fund.int.ty, Fund.char.ty] =
        H.is_constructible tests.string [Fund.int.ty, Fund.char.ty]) ∧
    (named_type_value.construct (fun p : Nat × Char => std_string_fill p.1 p.2)
      (4, '#')).value = "####" := by
  refine ⟨?_, ?_, by decide⟩
  · intro H W Head A Rest
    rw [named_type.is_construction_allowed_from, construction_allowed_multi]
  · intro H
    constructor
    · rw [named_type.is_construction_allowed_from, construction_allowed_multi]
      rfl
    · simp only [named_type.obj, tests.String, tests.string, std_is_constructible,
        construction_allowed_multi, List.map, deduce, Fund.ty]

/-- C7: a wrapper that carries AllowNarrowingConversions offers single-argument
construction from Head exactly when T is constructible from Head, and
assignment from U exactly when T& is assignable from U; what a wrapper over T
without the capability admits, a wrapper over T with it admits too; and a
source that T accepts but the detector flags is rejected without the capability
and admitted with it, as unsigned and unsigned long are by the wrappers of int
on x86-64 Linux. -/
theorem C7_allow_narrowing :
    (∀ (H : Host) (W : named_type), Mixin.AllowNarrowingConversions ∈ W.Mixins →
      (∀ Head : Ty, W.is_construction_allowed_from H Head [] =
        std_is_constructible H W.T.obj W.T.ref [Head]) ∧
      (∀ U : Ty, W.is_assignment_allowed_from H U = std_is_assignable H W.T.obj U)) ∧
    (∀ (H : Host) (W V : named_type), V.T = W.T →
      Mixin.AllowNarrowingConversions ∈ V.Mixins →
      (∀ (Head : Ty) (Tail : List Ty), W.is_construction_allowed_from H Head Tail = true →
        V.is_construction_allowed_from H Head Tail = true) ∧
      (∀ U : Ty, W.is_assignment_allowed_from H U = true →
        V.is_assignment_allowed_from H U = true)) ∧
    (∀ (H : Host) (W V : named_type) (Head : Ty), V.T = W.T →
      Mixin.AllowNarrowingConversions ∉ W.Mixins →
      Mixin.AllowNarrowingConversions ∈ V.Mixins →
      std_is_constructible H W.T.obj W.T.ref [Head] = true →
      is_conversion_narrowing H Head W.T = true →
      W.is_construction_allowed_from H Head [] = false ∧
      V.is_construction_allowed_from H Head [] = true) ∧
    (∀ f ∈ [Fund.unsigned, Fund.unsigned_long],
      tests.Int.is_construction_allowed_from gcc f.ty [] = false ∧
      tests.Int_narr.is_construction_allowed_from gcc f.ty [] = true ∧
      std_is_constructible gcc tests.Int_narr.obj .none [f.ty] = true) := by
  refine ⟨?_, ?_, ?_, by decide⟩
  · intro H W hW
    have hb := (is_base_of_AllowNarrowingConversions__iff W.Mixins).2 hW
    constructor
    · intro Head
      rw [named_type.is_construction_allowed_from, construction_allowed_single, hb]
      simp
    · intro U
      rw [named_type.is_assignment_allowed_from, assignment_allowed_eq, hb]
      simp
  · intro H W V hT hV
    have hb := (is_base_of_AllowNarrowingConversions__iff V.Mixins).2 hV
    constructor
    · intro Head Tail h
      cases Tail with
      | nil =>
        rw [named_type.is_construction_allowed_from, construction_allowed_single] at h ⊢
        rw [hT, hb]
        simp only [Bool.and_eq_true] at h
        simp [h.1]
      | cons A Rest =>
        rw [named_type.is_construction_allowed_from, construction_allowed_multi] at h ⊢
        rw [hT]
        exact h
    · intro U h
      rw [named_type.is_assignment_allowed_from, assignment_allowed_eq] at h ⊢
      rw [hT, hb]
      simp only [Bool.and_eq_true] at h
      simp [h.1]
  · intro H W V Head hT hW hV hc hn
    have hb := (is_base_of_AllowNarrowingConversions__iff V.Mixins).2 hV
    have hb' : is_base_of_AllowNarrowingConversions_ W.Mixins = false := by
      cases h : is_base_of_AllowNarrowingConversions_ W.Mixins
      · rfl
      · exact absurd ((is_base_of_AllowNarrowingConversions__iff W.Mixins).1 h) hW
    constructor
    · rw [named_type.is_construction_allowed_from, construction_allowed_single, hc, hn, hb']
      rfl
    · rw [named_type.is_construction_allowed_from, construction_allowed_single, hT, hc, hb]
      simp

theorem C7_allow_narrowing_witness :
    Mixin.AllowNarrowingConversions ∈ tests.Int_narr.Mixins ∧
    (∀ Head : Ty, tests.Int_narr.is_construction_allowed_from gcc Head [] =
      std_is_constructible gcc tests.Int_narr.T.obj tests.Int_narr.T.ref [Head]) ∧
    (∀ U : Ty, tests.Int_narr.is_assignment_allowed_from gcc U =
      std_is_assignable gcc tests.Int_narr.T.obj U) :=
  ⟨by decide, C7_allow_narrowing.1 gcc tests.Int_narr (by decide)⟩

theorem has_conversion_eq_false (Mixins : List Mixin)
    (h : Mixin.ImplicitConvertible ∉ Mixins ∧ Mixin.ExplicitConvertible ∉ Mixins) :
    has_conversion Mixins = false := by
  have hnil : Mixins.filter Mixin.declares_conversion = [] := by
    rw [List.filter_eq_nil_iff]
    intro m hm
    cases m <;> first | decide | exact absurd hm h.1 | exact absurd hm h.2
  simp [has_conversion, hnil]

theorem deduce_obj (A : Ty) : (deduce A).obj = A.obj := by
  obtain ⟨o, r⟩ := A
  cases r <;> rfl

/-- A wrapper over a fundamental type is constructible from no value of a
differently tagged wrapper over a fundamental type that has no conversion
function. -/
theorem not_constructible_from_other_wrapper (H : Host) (f g : Fund) (Tag₁ Tag₂ : Nat)
    (M₁ M₂ : List Mixin) (r : RefKind) (hTag : Tag₁ ≠ Tag₂)
    (h₂ : Mixin.ImplicitConvertible ∉ M₂ ∧ Mixin.ExplicitConvertible ∉ M₂) :
    std_is_constructible H (.named_type (.fund f) .none Tag₁ M₁) .none
      [⟨.named_type (.fund g) .none Tag₂ M₂, r⟩] = false := by
  have hc := has_conversion_eq_false M₂ h₂
  have hne : (Obj.named_type (.fund g) .none Tag₂ M₂ = Obj.named_type (.fund f) .none Tag₁ M₁)
      = False := by
    simp only [Obj.named_type.injEq, eq_iff_iff, iff_false, not_and]
    intro _ _ h
    exact absurd h.symm hTag
  have hd : (deduce ⟨.named_type (.fund g) .none Tag₂ M₂, r⟩).obj
      = .named_type (.fund g) .none Tag₂ M₂ := deduce_obj _
  simp only [std_is_constructible, construction_allowed_single, hd, hc, hne, if_false,
    Bool.false_and, Bool.or_false]

/-- Nor is it assignable from one. -/
theorem not_assignable_from_other_wrapper (H : Host) (f g : Fund) (Tag₁ Tag₂ : Nat)
    (M₁ M₂ : List Mixin) (r : RefKind) (hTag : Tag₁ ≠ Tag₂)
    (h₂ : Mixin.ImplicitConvertible ∉ M₂ ∧ Mixin.ExplicitConvertible ∉ M₂) :
    std_is_assignable H (.named_type (.fund f) .none Tag₁ M₁)
      ⟨.named_type (.fund g) .none Tag₂ M₂, r⟩ = false := by
  have hc := has_conversion_eq_false M₂ h₂
  have hne : (Obj.named_type (.fund g) .none Tag₂ M₂ = Obj.named_type (.fund f) .none Tag₁ M₁)
      = False := by
    simp only [Obj.named_type.injEq, eq_iff_iff, iff_false, not_and]
    intro _ _ h
    exact absurd h.symm hTag
  have hd : (deduce ⟨.named_type (.fund g) .none Tag₂ M₂, r⟩).obj
      = .named_type (.fund g) .none Tag₂ M₂ := deduce_obj _
  simp only [std_is_assignable, std_is_constructible, assignment_allowed_eq,
    construction_allowed_single, hd, hc, hne, if_false, Bool.false_and, Bool.and_false,
    Bool.or_false]

/-- C8, as stated, fails: `named_type<int, Int_tag>` and `named_type<int,
Int_conv_tag, mixins::ImplicitConvertible>` wrap the identical type under
different tags, and the first is constructible and assignable from a value
of the second, as the tests assert. -/
theorem C8_counterexample_implicit_convertible :
    tests.Int.T = tests.Int_conv.T ∧ tests.Int.Tag ≠ tests.Int_conv.Tag ∧
    std_is_constructible gcc tests.Int.obj .none [⟨tests.Int_conv.obj, .lvalue⟩] = true ∧
    std_is_constructible gcc tests.Int.obj .none [⟨tests.Int_conv.obj, .none⟩] = true ∧
    std_is_assignable gcc tests.Int.obj ⟨tests.Int_conv.obj, .lvalue⟩ = true := by
  decide

theorem two_pow_le_two_pow (a b : Nat) (h : a ≤ b) : (2 : ℤ) ^ a ≤ 2 ^ b :=
  pow_le_pow_right₀ (by norm_num) h

theorem two_pow_lt_two_pow (a b : Nat) (h : a < b) : (2 : ℤ) ^ a < 2 ^ b :=
  pow_lt_pow_right₀ (by norm_num) h

/-- An integral type represents all the values of a narrower one of its
signedness, and the narrower one does not represent all of its values. -/
theorem represents_all_wider (P : Platform) (A B : Fund) (hB : B ≠ Fund.bool)
    (hs : P.is_signed A = P.is_signed B) (ha : 0 < P.bits A) (hlt : P.bits A < P.bits B) :
    P.represents_all A B = true ∧ P.represents_all B A = false := by
  have h1 := two_pow_le_two_pow (P.bits A - 1) (P.bits B - 1) (by omega)
  have h2 := two_pow_lt_two_pow (P.bits A - 1) (P.bits B - 1) (by omega)
  have h3 := two_pow_lt_two_pow (P.bits A) (P.bits B) hlt
  have h4 := two_pow_le_two_pow 2 (P.bits B) (by omega)
  have h5 : (0 : ℤ) < 2 ^ (P.bits A) := by positivity
  have h6 : (0 : ℤ) < 2 ^ (P.bits A - 1) := by positivity
  have h7 : (0 : ℤ) < 2 ^ (P.bits B - 1) := by positivity
  norm_num at h4
  by_cases hA : A = Fund.bool
  · subst hA
    have hsB : P.is_signed B = false := by rw [← hs]; rfl
    simp only [Platform.represents_all, Platform.min_value, Platform.max_value, hB, hsB,
      if_true, if_false, Bool.false_eq_true, Bool.and_eq_true, Bool.and_eq_false_iff,
      decide_eq_true_eq, decide_eq_false_iff_not]
    constructor
    · constructor <;> omega
    · right; omega
  · cases hsB : P.is_signed B
    · have hsA : P.is_signed A = false := by rw [hs, hsB]
      simp only [Platform.represents_all, Platform.min_value, Platform.max_value, hA, hB, hsA,
        hsB, if_true, if_false, Bool.false_eq_true, Bool.and_eq_true, Bool.and_eq_false_iff,
        decide_eq_true_eq, decide_eq_false_iff_not]
      constructor
      · constructor <;> omega
      · right; omega
    · have hsA : P.is_signed A = true := by rw [hs, hsB]
      simp only [Platform.represents_all, Platform.min_value, Platform.max_value, hA, hB, hsA,
        hsB, if_true, if_false, Bool.false_eq_true, Bool.and_eq_true, Bool.and_eq_false_iff,
        decide_eq_true_eq, decide_eq_false_iff_not]
      constructor
      · constructor <;> omega
      · right; omega

theorem narrowing_conversion_integral (P : Platform) (A B : Fund)
    (hA : A.is_integral = true) (hB : B.is_integral = true) :
    narrowing_conversion P A B = !P.represents_all A B := by
  have hfA : A.is_floating_point = false := by
    cases A <;> first | rfl | exact absurd hA (by decide)
  have hfB : B.is_floating_point = false := by
    cases B <;> first | rfl | exact absurd hB (by decide)
  simp [narrowing_conversion, hA, hB, hfA, hfB]

/-- C11: for integer types A and B of one signedness, B strictly wider than A,
the detector is false from A to B and true from B to A, on every platform (B not
being bool, which no type is narrower than where bool is one byte); on x86-64
Linux this holds for every pair of integral types, bool included, and int32_t to
int64_t is false, int64_t to int32_t true. -/
theorem C11_widening_same_signedness :
    (∀ (H : Host) (A B : Fund), H.platform.valid →
      A.is_integral = true → B.is_integral = true → B ≠ Fund.bool →
      H.platform.is_signed A = H.platform.is_signed B →
      H.platform.bits A < H.platform.bits B →
      is_conversion_narrowing H A.ty B.ty = false ∧
      is_conversion_narrowing H B.ty A.ty = true) ∧
    (∀ A B : Fund, A.is_integral = true → B.is_integral = true →
      gcc.platform.is_signed A = gcc.platform.is_signed B →
      gcc.platform.bits A < gcc.platform.bits B →
      is_conversion_narrowing gcc A.ty B.ty = false ∧
      is_conversion_narrowing gcc B.ty A.ty = true) ∧
    is_conversion_narrowing gcc Fund.int.ty Fund.long.ty = false ∧
    is_conversion_narrowing gcc Fund.long.ty Fund.int.ty = true := by
  have general : ∀ (H : Host) (A B : Fund), H.platform.valid →
      A.is_integral = true → B.is_integral = true → B ≠ Fund.bool →
      H.platform.is_signed A = H.platform.is_signed B →
      H.platform.bits A < H.platform.bits B →
      is_conversion_narrowing H A.ty B.ty = false ∧
      is_conversion_narrowing H B.ty A.ty = true := by
    intro H A B hP hA hB hb hs hlt
    have haA : A.is_arithmetic = true := by simp [Fund.is_arithmetic, hA]
    have haB : B.is_arithmetic = true := by simp [Fund.is_arithmetic, hB]
    have hr := represents_all_wider H.platform A B hb hs (bits_pos _ hP A haA) hlt
    rw [narrowing_of_arithmetic H A B haA haB, narrowing_of_arithmetic H B A haB haA,
      narrowing_conversion_integral _ A B hA hB, narrowing_conversion_integral _ B A hB hA,
      hr.1, hr.2]
    exact ⟨rfl, rfl⟩
  refine ⟨general, ?_, by decide, by decide⟩
  intro A B hA hB hs hlt
  by_cases hb : B = Fund.bool
  · subst hb
    cases A <;> first | exact absurd hlt (by decide) | exact absurd hA (by decide)
  · exact general gcc A B lp64_valid hA hB hb hs hlt

theorem C11_widening_same_signedness_witness :
    gcc.platform.valid ∧ Fund.int.is_integral = true ∧ Fund.long.is_integral = true ∧
    Fund.long ≠ Fund.bool ∧ gcc.platform.is_signed Fund.int = gcc.platform.is_signed Fund.long ∧
    gcc.platform.bits Fund.int < gcc.platform.bits Fund.long ∧
    is_conversion_narrowing gcc Fund.int.ty Fund.long.ty = false ∧
    is_conversion_narrowing gcc Fund.long.ty Fund.int.ty = true :=
  ⟨lp64_valid, by decide, by decide, by decide, by decide, by decide,
    C11_widening_same_signedness.1 gcc Fund.int Fund.long lp64_valid (by decide) (by decide)
      (by decide) (by decide) (by decide)⟩

/-! ## Lemmas on implicit conversions -/

theorem is_base_of_AllowImplicitConstructors__iff (Mixins : List Mixin) :
    is_base_of_AllowImplicitConstructors_ Mixins = true ↔
      Mixin.AllowImplicitConstructors ∈ Mixins := by
  simp only [is_base_of_AllowImplicitConstructors_, List.any_eq_true]
  constructor
  · rintro ⟨m, hm, h⟩
    cases m <;> first | exact hm | exact absurd h (by decide)
  · intro h
    exact ⟨_, h, rfl⟩

theorem is_base_of_AllowImplicitConstructors__eq_false (Mixins : List Mixin)
    (h : Mixin.AllowImplicitConstructors ∉ Mixins) :
    is_base_of_AllowImplicitConstructors_ Mixins = false := by
  cases hb : is_base_of_AllowImplicitConstructors_ Mixins
  · rfl
  · exact absurd ((is_base_of_AllowImplicitConstructors__iff Mixins).1 hb) h

/-- No type is a wrapper over itself. -/
theorem Obj.ne_named_type_self (o : Obj) (r : RefKind) (t : Nat) (m : List Mixin) :
    o ≠ Obj.named_type o r t m := by
  intro h
  have hs := congrArg sizeOf h
  simp at hs
  omega

/-- No type is a wrapper over a wrapper over itself. -/
theorem Obj.ne_named_type_named_type_self (o : Obj) (r r' : RefKind) (t t' : Nat)
    (m m' : List Mixin) :
    o ≠ Obj.named_type (Obj.named_type o r t m) r' t' m' := by
  intro h
  have hs := congrArg sizeOf h
  simp at hs
  omega

/-- A value of the underlying type converts to the wrapper only through the
generic constructor that is not explicit, unless its class has a conversion
function of its own to the wrapper. -/
theorem std_is_convertible_from_underlying (H : Host) (W : named_type) (r : RefKind)
    (hH : H.is_convertible ⟨W.T.obj, r⟩ W.ty = false) :
    std_is_convertible H ⟨W.T.obj, r⟩ W.obj .none =
      (is_base_of_AllowImplicitConstructors_ W.Mixins &&
        W.is_construction_allowed_from H (deduce ⟨W.T.obj, r⟩) [] &&
        (H.member_move_constructible W.T || H.member_copy_constructible W.T)) := by
  obtain ⟨⟨o, q⟩, t, m⟩ := W
  simp only [named_type.obj, named_type.ty] at hH ⊢
  have hne : (o = Obj.named_type o q t m) = False := eq_false (Obj.ne_named_type_self o q t m)
  simp only [std_is_convertible, hne, if_false, named_type.is_construction_allowed_from]
  cases o with
  | fund f => simp
  | other n => simp [hH]
  | named_type S q' t' m' =>
    have hne2 : (S = Obj.named_type (Obj.named_type S q' t' m') q t m) = False :=
      eq_false (Obj.ne_named_type_named_type_self S q' q t' t m' m)
    simp [hne2]

/-! ## Claims on implicit and explicit constructors -/

/-- C12: a wrapper that does not carry AllowImplicitConstructors has every
generic constructor explicit, whatever the arguments, and no value of its
underlying type converts implicitly to it (the underlying type having no
conversion function of its own to the wrapper); a wrapper that carries
AllowImplicitConstructors has every admitted generic constructor not explicit,
and a value of the underlying type from which construction is admitted converts
implicitly to the wrapper (the wrapper being movable or copyable).  On x86-64
Linux is_convertible<int, Int_cons> is true and is_convertible<int, Int_conv> is
false. -/
theorem C12_implicit_constructors :
    (∀ (H : Host) (W : named_type), Mixin.AllowImplicitConstructors ∉ W.Mixins →
      (∀ (Head : Ty) (Tail : List Ty),
        W.generic_constructor_enabled H .implicit Head Tail = false ∧
        W.generic_constructor_enabled H .explicit Head Tail =
          W.is_construction_allowed_from H Head Tail) ∧
      (∀ r : RefKind, H.is_convertible ⟨W.T.obj, r⟩ W.ty = false →
        std_is_convertible H ⟨W.T.obj, r⟩ W.obj .none = false)) ∧
    (∀ (H : Host) (W : named_type), Mixin.AllowImplicitConstructors ∈ W.Mixins →
      (∀ (Head : Ty) (Tail : List Ty),
        W.generic_constructor_enabled H .implicit Head Tail =
          W.is_construction_allowed_from H Head Tail ∧
        W.generic_constructor_enabled H .explicit Head Tail = false) ∧
      (∀ r : RefKind, H.is_convertible ⟨W.T.obj, r⟩ W.ty = false →
        (H.member_move_constructible W.T || H.member_copy_constructible W.T) = true →
        std_is_convertible H ⟨W.T.obj, r⟩ W.obj .none =
          W.is_construction_allowed_from H (deduce ⟨W.T.obj, r⟩) [])) ∧
    std_is_convertible gcc Fund.int.ty tests.Int_cons.obj .none = true ∧
    std_is_convertible gcc Fund.int.ty tests.Int_conv.obj .none = false := by
  refine ⟨?_, ?_, by decide, by decide⟩
  · intro H W hW
    have hb := is_base_of_AllowImplicitConstructors__eq_false W.Mixins hW
    constructor
    · intro Head Tail
      simp [named_type.generic_constructor_enabled, named_type.is_constructor_implicit, hb]
    · intro r hH
      rw [std_is_convertible_from_underlying H W r hH, hb]
      rfl
  · intro H W hW
    have hb := (is_base_of_AllowImplicitConstructors__iff W.Mixins).2 hW
    constructor
    · intro Head Tail
      simp [named_type.generic_constructor_enabled, named_type.is_constructor_implicit, hb]
    · intro r hH hm
      rw [std_is_convertible_from_underlying H W r hH, hb, hm]
      simp

theorem C12_implicit_constructors_witness :
    Mixin.AllowImplicitConstructors ∈ tests.Int_cons.Mixins ∧
    (∀ (Head : Ty) (Tail : List Ty),
      tests.Int_cons.generic_constructor_enabled gcc .implicit Head Tail =
        tests.Int_cons.is_construction_allowed_from gcc Head Tail ∧
      tests.Int_cons.generic_constructor_enabled gcc .explicit Head Tail = false) ∧
    gcc.is_convertible ⟨tests.Int_cons.T.obj, .none⟩ tests.Int_cons.ty = false ∧
    (gcc.member_move_constructible tests.Int_cons.T ||
      gcc.member_copy_constructible tests.Int_cons.T) = true ∧
    std_is_convertible gcc ⟨tests.Int_cons.T.obj, .none⟩ tests.Int_cons.obj .none =
      tests.Int_cons.is_construction_allowed_from gcc (deduce ⟨tests.Int_cons.T.obj, .none⟩) [] :=
  ⟨by decide, (C12_implicit_constructors.2.1 gcc tests.Int_cons (by decide)).1, by decide,
    by decide,
    (C12_implicit_constructors.2.1 gcc tests.Int_cons (by decide)).2 .none (by decide)
      (by decide)⟩

theorem implicitly_convertible_self (f : Fund) (hf : f ≠ Fund.void) :
    implicitly_convertible f f = true := by
  cases f <;> first | rfl | exact absurd rfl hf

theorem is_conversion_narrowing_deduce (H : Host) (U T : Ty) :
    is_conversion_narrowing H (deduce U) T = is_conversion_narrowing H U T := by
  rw [is_conversion_narrowing_remove_reference H (deduce U),
    is_conversion_narrowing_remove_reference H U]
  simp [remove_reference, deduce_obj]

/-- What the detector flags is, references apart, a fundamental type. -/
theorem obj_fund_of_is_conversion_narrowing (H : Host) (U T : Ty)
    (h : is_conversion_narrowing H U T = true) : ∃ g : Fund, U.obj = Obj.fund g := by
  obtain ⟨o, r⟩ := U
  cases o with
  | fund g => exact ⟨g, rfl⟩
  | other n =>
    rw [is_conversion_narrowing_of_not_fundamental H _ _ (by simp [is_fundamental, remove_reference])] at h
    exact absurd h (by decide)
  | named_type S q t m =>
    rw [is_conversion_narrowing_of_not_fundamental H _ _ (by simp [is_fundamental, remove_reference])] at h
    exact absurd h (by decide)

/-- C14: a wrapper over a fundamental type that does not carry
AllowNarrowingConversions, whatever else it carries, is not constructible from,
not implicitly convertible from and not assignable from a source that the
detector flags as narrowing to the underlying type: no other constructor or
assignment operator takes the place of the withheld generic ones.  On x86-64
Linux so `named_type<int, Tag, mixins::AllowImplicitConstructors>` and
unsigned. -/
theorem C14_no_substitute_overload (H : Host) (f : Fund) (W : named_type) (U : Ty)
    (hT : W.T = f.ty) (hW : Mixin.AllowNarrowingConversions ∉ W.Mixins)
    (hU : is_conversion_narrowing H U W.T = true) :
    std_is_constructible H W.obj .none [U] = false ∧
    std_is_convertible H U W.obj .none = false ∧
    std_is_assignable H W.obj U = false := by
  obtain ⟨g, hg⟩ := obj_fund_of_is_conversion_narrowing H U W.T hU
  have hb : is_base_of_AllowNarrowingConversions_ W.Mixins = false := by
    cases h : is_base_of_AllowNarrowingConversions_ W.Mixins
    · rfl
    · exact absurd ((is_base_of_AllowNarrowingConversions__iff W.Mixins).1 h) hW
  rw [hT] at hU
  have hd : is_conversion_narrowing H (deduce U) ⟨.fund f, .none⟩ = true := by
    rw [is_conversion_narrowing_deduce]; exact hU
  simp [named_type.obj, hT, Fund.ty, std_is_constructible, std_is_convertible,
    std_is_assignable, construction_allowed_single, assignment_allowed_eq, hg, hb, hd]

theorem C14_no_substitute_overload_witness :
    tests.Int_cons.T = Fund.int.ty ∧
    Mixin.AllowNarrowingConversions ∉ tests.Int_cons.Mixins ∧
    is_conversion_narrowing gcc Fund.unsigned.ty tests.Int_cons.T = true ∧
    std_is_constructible gcc tests.Int_cons.obj .none [Fund.unsigned.ty] = false ∧
    std_is_convertible gcc Fund.unsigned.ty tests.Int_cons.obj .none = false ∧
    std_is_assignable gcc tests.Int_cons.obj Fund.unsigned.ty = false :=
  ⟨rfl, by decide, by decide,
    C14_no_substitute_overload gcc Fund.int tests.Int_cons Fund.unsigned.ty rfl (by decide)
      (by decide)⟩

/-- C17: the code at the failing input.  A wrapper `named_type<int, Tag,
mixins::ExplicitConvertible>` that is not const converts implicitly to int: of
the two conversion functions of ExplicitConvertible only the const-qualified one
is declared explicit (line 345), `operator T&()` is not (line 342).  A const
wrapper converts by an explicit cast only. -/
theorem C17_operator_T_ref_is_not_explicit :
    Mixin.conversion_functions .ExplicitConvertible =
      [⟨false, false, false⟩, ⟨true, true, true⟩] ∧
    converts_implicitly [.ExplicitConvertible] false = true ∧
    converts_implicitly [.ExplicitConvertible] true = false ∧
    converts_explicitly [.ExplicitConvertible] true = true ∧
    std_is_convertible gcc ⟨.named_type (.fund .int) .none 8 [.ExplicitConvertible], .none⟩
      (.fund .int) .none = true ∧
    std_is_assignable gcc (.fund .int)
      ⟨.named_type (.fund .int) .none 8 [.ExplicitConvertible], .lvalue⟩ = true := by
  decide

theorem conversion_candidates_length (Mixins : List Mixin) :
    ((((conversion_functions Mixins).filter
        (fun c => c.callable false && !c.declared_explicit)).filter
        (fun c => !c.const_qualified)).length = (Mixins.filter Mixin.declares_conversion).length) ∧
    ((Mixins.filter Mixin.declares_conversion).length = 0 →
      (conversion_functions Mixins).filter
        (fun c => c.callable false && !c.declared_explicit) = []) := by
  induction Mixins with
  | nil => exact ⟨rfl, fun _ => rfl⟩
  | cons m M ih =>
    obtain ⟨ih1, ih2⟩ := ih
    cases m <;>
      simp_all [conversion_functions, Mixin.conversion_functions, Mixin.declares_conversion,
        conversion_function.callable, List.filter_cons]

/-- On a wrapper that is not const the two accounts of its conversion to the
underlying type agree. -/
theorem has_conversion_eq_converts_implicitly (Mixins : List Mixin) :
    has_conversion Mixins = converts_implicitly Mixins false := by
  obtain ⟨h1, h2⟩ := conversion_candidates_length Mixins
  simp only [has_conversion, converts_implicitly, best_conversions, Bool.false_eq_true, if_false]
  by_cases hk : (Mixins.filter Mixin.declares_conversion).length = 0
  · rw [h2 hk]
    simp [hk]
  · have hne : (((conversion_functions Mixins).filter
        (fun c => c.callable false && !c.declared_explicit)).filter
        (fun c => !c.const_qualified)).isEmpty = false := by
      rw [List.isEmpty_eq_false_iff_exists_mem]
      apply List.exists_mem_of_length_pos
      omega
    simp only [hne, Bool.false_eq_true, if_false, h1]

/-! ## Lemmas on the wrapper without mixins -/

theorem represents_all_self (P : Platform) (f : Fund) : P.represents_all f f = true := by
  simp [Platform.represents_all]

theorem list_init_fundamental_self (P : Platform) (f : Fund) (hf : f ≠ Fund.void) :
    list_init_fundamental P f f = Init.well_formed := by
  cases f <;>
    first
    | exact absurd rfl hf
    | simp [list_init_fundamental, direct_initializable, narrowing_conversion,
        Fund.is_arithmetic, Fund.is_integral, Fund.is_floating_point, represents_all_self]

/-- The detector flags no conversion of a type to itself, references apart. -/
theorem is_conversion_narrowing_same (H : Host) (A U : Ty) (h : A.obj = U.obj)
    (hv : U.obj ≠ Obj.fund Fund.void) : is_conversion_narrowing H A U = false := by
  rw [is_conversion_narrowing_remove_reference]
  obtain ⟨a, r⟩ := A
  obtain ⟨u, q⟩ := U
  simp only at h hv
  subst h
  cases a with
  | fund f =>
    have hf : f ≠ Fund.void := fun hf => hv (by rw [hf])
    have h1 := is_conversion_narrowing_fund H f f
    rw [list_init_fundamental_self _ f hf] at h1
    simpa [remove_reference, Fund.ty] using h1
  | other n =>
    exact is_conversion_narrowing_of_not_fundamental H _ _ (by simp [is_fundamental, remove_reference])
  | named_type S q t m =>
    exact is_conversion_narrowing_of_not_fundamental H _ _ (by simp [is_fundamental, remove_reference])

theorem plain_wrapper_constructible (H : Host) (U A : Ty) (Tag : Nat) (hA : A.obj = U.obj)
    (hv : U.obj ≠ Obj.fund Fund.void)
    (hown : H.is_constructible (plain_wrapper U Tag).ty [A] = false) :
    std_is_constructible H (plain_wrapper U Tag).obj .none [A] =
      std_is_constructible H U.obj U.ref [deduce A] := by
  have hn : is_conversion_narrowing H (deduce A) ⟨U.obj, U.ref⟩ = false :=
    is_conversion_narrowing_same H (deduce A) ⟨U.obj, U.ref⟩ (by rw [deduce_obj]; exact hA) hv
  obtain ⟨u, q⟩ := U
  obtain ⟨a, r⟩ := A
  simp only at hA hv hn
  subst hA
  have hne : (a = Obj.named_type a q Tag []) = False :=
    eq_false (Obj.ne_named_type_self _ _ _ _)
  simp only [plain_wrapper, named_type.obj, named_type.ty] at hown ⊢
  simp only [std_is_constructible, construction_allowed_single, hn, hne, if_false,
    Bool.not_false, Bool.true_or, Bool.and_true]
  cases a with
  | fund f => simp
  | other n => simp [hown]
  | named_type S q' t m =>
    have hne2 : (S = Obj.named_type (Obj.named_type S q' t m) q Tag []) = False :=
      eq_false (Obj.ne_named_type_named_type_self S q' q t Tag m [])
    simp [hne2]

theorem plain_wrapper_assignable (H : Host) (U A : Ty) (Tag : Nat) (hA : A.obj = U.obj)
    (hv : U.obj ≠ Obj.fund Fund.void)
    (hown : H.is_assignable (plain_wrapper U Tag).obj A = false) :
    std_is_assignable H (plain_wrapper U Tag).obj A =
      std_is_assignable H U.obj (deduce A) := by
  have hn : is_conversion_narrowing H (deduce A) ⟨U.obj, U.ref⟩ = false :=
    is_conversion_narrowing_same H (deduce A) ⟨U.obj, U.ref⟩ (by rw [deduce_obj]; exact hA) hv
  obtain ⟨u, q⟩ := U
  obtain ⟨a, r⟩ := A
  simp only at hA hv hn
  subst hA
  have hne : (a = Obj.named_type a q Tag []) = False :=
    eq_false (Obj.ne_named_type_self _ _ _ _)
  have hi : is_base_of_AllowImplicitConstructors_ [] = false := rfl
  simp only [plain_wrapper, named_type.obj] at hown ⊢
  simp only [std_is_assignable, assignment_allowed_eq, hn, hne, hi, if_false,
    Bool.not_false, Bool.true_or, Bool.and_true, Bool.false_and, Bool.false_or]
  cases a with
  | fund f => simp
  | other n => simp [hown]
  | named_type S q' t m =>
    have hne2 : (S = Obj.named_type (Obj.named_type S q' t m) q Tag []) = False :=
      eq_false (Obj.ne_named_type_named_type_self S q' q t Tag m [])
    simp [hne2]

theorem with_reference_obj (r : RefKind) (U : Ty) : (with_reference r U).obj = U.obj := by
  have h := congrArg Ty.obj (remove_reference_with_reference r U)
  simpa [remove_reference] using h

theorem plain_wrapper_copy_constructible (H : Host) (U : Ty) (Tag : Nat)
    (hr : std_is_constructible H U.obj U.ref [⟨(plain_wrapper U Tag).obj, .lvalue⟩] = false) :
    std_is_copy_constructible H (plain_wrapper U Tag).ty = H.member_copy_constructible U := by
  simp only [plain_wrapper, named_type.obj, named_type.ty] at hr ⊢
  simp [std_is_copy_constructible, add_lvalue_reference, std_is_constructible,
    construction_allowed_single, deduce, hr]

theorem plain_wrapper_move_constructible (H : Host) (U : Ty) (Tag : Nat)
    (hr : std_is_constructible H U.obj U.ref [⟨(plain_wrapper U Tag).obj, .none⟩] = false) :
    std_is_move_constructible H (plain_wrapper U Tag).ty =
      (H.member_move_constructible U || H.member_copy_constructible U) := by
  simp only [plain_wrapper, named_type.obj, named_type.ty] at hr ⊢
  simp [std_is_move_constructible, add_rvalue_reference, std_is_constructible,
    construction_allowed_single, deduce, hr]

theorem plain_wrapper_copy_assignable (H : Host) (U : Ty) (Tag : Nat)
    (hr : std_is_assignable H U.obj ⟨(plain_wrapper U Tag).obj, .lvalue⟩ = false) :
    std_is_copy_assignable H (plain_wrapper U Tag).ty = H.member_copy_assignable U := by
  simp only [plain_wrapper, named_type.obj, named_type.ty] at hr ⊢
  simp [std_is_copy_assignable, add_lvalue_reference, std_is_assignable,
    assignment_allowed_eq, deduce, hr]

theorem plain_wrapper_move_assignable (H : Host) (U : Ty) (Tag : Nat)
    (hr : std_is_assignable H U.obj ⟨(plain_wrapper U Tag).obj, .none⟩ = false) :
    std_is_move_assignable H (plain_wrapper U Tag).ty =
      (H.member_move_assignable U || H.member_copy_assignable U) := by
  simp only [plain_wrapper, named_type.obj, named_type.ty] at hr ⊢
  simp [std_is_move_assignable, add_rvalue_reference, std_is_assignable,
    assignment_allowed_eq, deduce, hr]

/-- On the bare host every fundamental type but void is ordinary. -/
theorem ordinary_fundamental (P : Platform) (f : Fund) (Tag : Nat) (hf : f ≠ Fund.void) :
    ordinary (Host.bare P) f.ty (plain_wrapper f.ty Tag) := by
  have hs := implicitly_convertible_self f hf
  have hd : direct_initializable f f = true := by
    cases f <;> first | rfl | exact absurd rfl hf
  have hv : (Obj.fund f = Obj.fund Fund.void) = False := by simp [hf]
  constructor
  · simp [Fund.ty, hf]
  · intro r
    simp [Fund.ty, plain_wrapper, named_type.obj, std_is_constructible, has_conversion]
  · intro r
    simp [Fund.ty, plain_wrapper, named_type.obj, std_is_assignable, has_conversion]
  · intro r; rfl
  · intro r; rfl
  · simp [Fund.ty, Host.bare, plain_member_default, std_is_default_constructible,
      std_is_constructible, hf]
  · simp [Fund.ty, Host.bare, plain_member, std_is_copy_constructible, add_lvalue_reference,
      std_is_constructible, hf, hd, hv]
  · simp [Fund.ty, Host.bare, plain_member, std_is_move_constructible, add_rvalue_reference,
      std_is_constructible, hf, hd, hv]
  · simp [Fund.ty, Host.bare, plain_member_assignable, std_is_copy_assignable,
      add_lvalue_reference, std_is_assignable, hf, hs, hv]
  · simp [Fund.ty, Host.bare, plain_member_assignable, std_is_move_assignable,
      add_rvalue_reference, std_is_assignable, hf, hs, hv]

/-- C15, as stated, fails in two ways.  With U the reference type `int&`, U is
copy- and move-assignable (an int is assigned through it) and the wrapper
`named_type<int&, Tag>` is neither, its defaulted assignment operators being
deleted for the reference member.  With U the type `const Pod`, where
`class Pod { int i; };`, U is default-constructible, by value-initialisation,
and the wrapper `named_type<const Pod, Tag>` is not: its defaulted default
constructor (line 123) is deleted for the member `const Pod value_;` (line 82),
which has no initialiser. -/
theorem C15_counterexample_reference_and_const :
    (std_is_copy_assignable gcc ⟨.fund .int, .lvalue⟩ = true ∧
      std_is_copy_assignable gcc (plain_wrapper ⟨.fund .int, .lvalue⟩ 8).ty = false ∧
      std_is_move_assignable gcc ⟨.fund .int, .lvalue⟩ = true ∧
      std_is_move_assignable gcc (plain_wrapper ⟨.fund .int, .lvalue⟩ 8).ty = false) ∧
    (std_is_default_constructible (Host.with_const_Pod lp64) ⟨.other 104, .none⟩ = true ∧
      std_is_default_constructible (Host.with_const_Pod lp64)
        (plain_wrapper ⟨.other 104, .none⟩ 8).ty = false) := by
  decide

/-- C15, amended: for every type U that is ordinary for the host (not void;
accepting no wrapper of itself and converting to none; default-constructed,
copied, moved and assigned as a member exactly as on its own, which excludes
references and the const-qualified types that a member cannot have without an
initialiser), the wrapper V =
named_type<U, Tag> without mixins is constructible from U, U& and U&& exactly
when U is, V& is assignable from them exactly when U& is, and V is default-,
copy- and move-constructible and copy- and move-assignable exactly when U is;
every fundamental type but void is ordinary on the bare host. -/
theorem C15_plain_wrapper_keeps_the_shape :
    (∀ (H : Host) (U : Ty) (Tag : Nat), ordinary H U (plain_wrapper U Tag) →
      (∀ r : RefKind,
        std_is_constructible H (plain_wrapper U Tag).obj .none [with_reference r U] =
          std_is_constructible H U.obj U.ref [deduce (with_reference r U)]) ∧
      (∀ r : RefKind,
        std_is_assignable H (plain_wrapper U Tag).obj (with_reference r U) =
          std_is_assignable H U.obj (deduce (with_reference r U))) ∧
      std_is_default_constructible H (plain_wrapper U Tag).ty =
        std_is_default_constructible H U ∧
      std_is_copy_constructible H (plain_wrapper U Tag).ty = std_is_copy_constructible H U ∧
      std_is_move_constructible H (plain_wrapper U Tag).ty = std_is_move_constructible H U ∧
      std_is_copy_assignable H (plain_wrapper U Tag).ty = std_is_copy_assignable H U ∧
      std_is_move_assignable H (plain_wrapper U Tag).ty = std_is_move_assignable H U) ∧
    (∀ (P : Platform) (f : Fund) (Tag : Nat), f ≠ Fund.void →
      ordinary (Host.bare P) f.ty (plain_wrapper f.ty Tag)) := by
  refine ⟨?_, ordinary_fundamental⟩
  intro H U Tag h
  refine ⟨?_, ?_, ?_, ?_, ?_, ?_, ?_⟩
  · intro r
    apply plain_wrapper_constructible H U _ Tag (with_reference_obj r U) h.not_void
    have h1 := h.no_conversion_function (with_reference r U).ref
    rw [← with_reference_obj r U] at h1
    exact h1
  · intro r
    apply plain_wrapper_assignable H U _ Tag (with_reference_obj r U) h.not_void
    have h1 := h.no_conversion_function_assigned (with_reference r U).ref
    rw [← with_reference_obj r U] at h1
    exact h1
  · rw [← h.member_default]
    simp [std_is_default_constructible, plain_wrapper, named_type.ty, named_type.obj,
      std_is_constructible]
  · rw [plain_wrapper_copy_constructible H U Tag (h.rejects_wrapper .lvalue), h.member_copy]
  · rw [plain_wrapper_move_constructible H U Tag (h.rejects_wrapper .none), h.member_move]
  · rw [plain_wrapper_copy_assignable H U Tag (h.rejects_wrapper_assigned .lvalue),
      h.member_copy_assign]
  · rw [plain_wrapper_move_assignable H U Tag (h.rejects_wrapper_assigned .none),
      h.member_move_assign]

theorem C15_plain_wrapper_keeps_the_shape_witness :
    ordinary gcc Fund.int.ty (plain_wrapper Fund.int.ty 1) ∧
    (∀ r : RefKind,
      std_is_constructible gcc (plain_wrapper Fund.int.ty 1).obj .none
          [with_reference r Fund.int.ty] =
        std_is_constructible gcc Fund.int.ty.obj Fund.int.ty.ref
          [deduce (with_reference r Fund.int.ty)]) ∧
    std_is_copy_assignable gcc (plain_wrapper Fund.int.ty 1).ty =
      std_is_copy_assignable gcc Fund.int.ty :=
  ⟨ordinary_fundamental lp64 Fund.int 1 (by decide),
    (C15_plain_wrapper_keeps_the_shape.1 gcc Fund.int.ty 1
      (ordinary_fundamental lp64 Fund.int 1 (by decide))).1,
    (C15_plain_wrapper_keeps_the_shape.1 gcc Fund.int.ty 1
      (ordinary_fundamental lp64 Fund.int 1 (by decide))).2.2.2.2.2.1⟩

/-! ## Claims on the values of a wrapper -/

/-- C16: a wrapper over `std::unique_ptr` that is moved, into another wrapper
or out into a pointer, hands over exactly the resource it held and is left
null; so of the source and the destination exactly one holds the resource
afterwards.  In the test, `Iptr i1{make_unique<int>(42)}` is moved into an IIptr,
out of it into `i2`, `i2` into the parameter of fun6 and out into `i3`: `i3`
holds 42 and `i1`, `i2` and both temporaries hold null. -/
theorem C16_move_only_round_trip :
    (∀ (α : Type) (w : named_type_value (unique_ptr α)),
      (w.move unique_ptr.move).1.value = w.value ∧
      (w.move unique_ptr.move).2.value = none ∧
      (w.move_value unique_ptr.move).1 = w.value ∧
      (w.move_value unique_ptr.move).2.value = none) ∧
    (∀ (α : Type) (p : unique_ptr α),
      (named_type_value.construct_moved unique_ptr.move p).1.value = p ∧
      (named_type_value.construct_moved unique_ptr.move p).2 = none) ∧
    (let i1 := named_type_value.construct make_unique (42 : ℤ)
     let px := named_type_value.construct_moved
       (named_type_value.move unique_ptr.move) i1
     let i1_after := px.2
     let i2 := (px.1.move_value (named_type_value.move unique_ptr.move)).1
     let px_after := (px.1.move_value (named_type_value.move unique_ptr.move)).2
     let py := i2.move unique_ptr.move
     let i2_after := py.2
     let i3 := (py.1.move_value unique_ptr.move).1
     let py_after := (py.1.move_value unique_ptr.move).2
     i3 = some 42 ∧ i1_after.value = none ∧ i2_after.value = none ∧
       px_after.value.value = none ∧ py_after.value = none) := by
  refine ⟨fun α w => ⟨rfl, rfl, rfl, rfl⟩, fun α p => ⟨rfl, rfl⟩, ?_⟩
  exact ⟨rfl, rfl, rfl, rfl, rfl⟩

/-- C19: the named-argument expression `Base::arg = v` is a Base built from v
by the same initialisation as `Base{v}`, and holds the same value: an int is
copied in, a reference wrapper holds the same reference, a std::unique_ptr is
moved in and its source left null.  `Int::arg = 42` and `Int{42}` hold 42, and
`My_age = 42`, `My_name = "Ololosha"` give Age 42 and Name "Ololosha". -/
theorem C19_named_argument :
    (∀ (U T : Type) (init : U → T) (v : U),
      NamedArgument_assign init v = named_type_value.construct init v ∧
      (NamedArgument_assign init v).value = init v) ∧
    (NamedArgument_assign (fun i : ℤ => i) 42).value = 42 ∧
    (named_type_value.construct (fun i : ℤ => i) 42).value = 42 ∧
    (NamedArgument_assign (fun s : String => s) "Ololosha").value = "Ololosha" ∧
    (∀ (α : Type) (p : unique_ptr α),
      (NamedArgument_assign_moved unique_ptr.move p).1.value = p ∧
      (NamedArgument_assign_moved unique_ptr.move p).2 = none ∧
      NamedArgument_assign_moved unique_ptr.move p =
        named_type_value.construct_moved unique_ptr.move p) := by
  refine ⟨fun U T init v => ⟨rfl, rfl⟩, rfl, rfl, rfl, fun α p => ⟨rfl, rfl, rfl⟩⟩

/-- C18: the code at the failing input, with what holds around it.  A
constructed wrapper holds the underlying value built from the arguments, and
`value()`, `operator->` and `operator*` on an lvalue wrapper reach it; after an
assignment the wrapper returned holds the converted value.  But `operator*` on an
rvalue wrapper over a type that is not an lvalue reference, such as
`*String("Hello")`, has no result: its return statement is ill-formed. -/
theorem C18_operator_deref_on_rvalue :
    (∀ (Args T : Type) (init : Args → T) (args : Args),
      (named_type_value.construct init args).value = init args ∧
      (named_type_value.construct init args).operator_deref = init args ∧
      (named_type_value.construct init args).operator_arrow = init args) ∧
    (∀ (U T : Type) (w : named_type_value T) (convert : U → T) (v : U),
      (w.assign convert v).value = convert v) ∧
    (named_type_value.construct (fun s : String => s) "Hello").operator_deref = "Hello" ∧
    (named_type_value.construct (fun p : Nat × Char => std_string_fill p.1 p.2)
      (4, '#')).operator_deref = "####" ∧
    (named_type_value.construct (fun i : ℤ => i) 3).value = 3 ∧
    (∀ T : Ty, operator_deref_rvalue_well_formed T = decide (T.ref = RefKind.lvalue)) ∧
    operator_deref_rvalue_well_formed tests.string = false ∧
    (named_type_value.construct (fun s : String => s) "Hello").operator_deref_rvalue
      tests.string = none := by
  refine ⟨fun _ _ _ _ => ⟨rfl, rfl, rfl⟩, fun _ _ _ _ _ => rfl, rfl, by decide, rfl, ?_,
    by decide, by decide⟩
  intro T
  obtain ⟨o, r⟩ := T
  cases o with
  | fund f => cases f <;> cases r <;> rfl
  | other n => cases r <;> rfl
  | named_type S q t m => cases r <;> rfl

/-- An entry of a map with its key wrapped. -/
theorem map_emplace_wrapped {K V : Type} (lt : K → K → Bool) (k : K) (v : V)
    (m : List (K × V)) :
    map_emplace (named_type_value.operator_lt lt) ⟨k⟩ v
        (m.map (fun e => ((⟨e.1⟩ : named_type_value K), e.2))) =
      (map_emplace lt k v m).map (fun e => ((⟨e.1⟩ : named_type_value K), e.2)) := by
  induction m with
  | nil => rfl
  | cons e rest ih =>
    simp only [List.map_cons, map_emplace, named_type_value.operator_lt, named_type_value.value]
    by_cases h1 : lt k e.1 = true
    · simp [h1]
    · by_cases h2 : lt e.1 k = true
      · simp only [h1, h2, if_true, if_false, List.map_cons, Bool.false_eq_true]
        rw [← ih]
      · simp [h1, h2]

theorem map_of_wrapped_aux {K V : Type} (lt : K → K → Bool) (entries m : List (K × V)) :
    (entries.map (fun e => ((⟨e.1⟩ : named_type_value K), e.2))).foldl
        (fun m e => map_emplace (named_type_value.operator_lt lt) e.1 e.2 m)
        (m.map (fun e => ((⟨e.1⟩ : named_type_value K), e.2))) =
      (entries.foldl (fun m e => map_emplace lt e.1 e.2 m) m).map
        (fun e => ((⟨e.1⟩ : named_type_value K), e.2)) := by
  induction entries generalizing m with
  | nil => rfl
  | cons e rest ih =>
    simp only [List.map_cons, List.foldl_cons]
    rw [map_emplace_wrapped, ih]

theorem map_of_wrapped {K V : Type} (lt : K → K → Bool) (entries : List (K × V)) :
    map_of (named_type_value.operator_lt lt)
        (entries.map (fun e => ((⟨e.1⟩ : named_type_value K), e.2))) =
      (map_of lt entries).map (fun e => ((⟨e.1⟩ : named_type_value K), e.2)) :=
  map_of_wrapped_aux lt entries []

theorem std_equal_wrapped {K V : Type} [DecidableEq K] [DecidableEq V] (m : List (K × V)) :
    std_equal (fun (l : named_type_value K × V) (r : K × V) =>
        decide (l.1.operator_deref = r.1) && decide (l.2 = r.2))
      (m.map (fun e => ((⟨e.1⟩ : named_type_value K), e.2))) m = true := by
  induction m with
  | nil => rfl
  | cons e rest ih =>
    simp only [List.map_cons, std_equal, ih, Bool.and_true]
    simp [named_type_value.operator_deref, named_type_value.value]

/-- C20: on wrappers that carry EqualLessComparable, `a < b`, `a == b` and
`a != b` are the comparisons of `a.value()` and `b.value()`; so a std::map keyed
by the wrapper holds, after the same entries are emplaced, the entries of the
map keyed by the underlying values in the same order, key for key, and the
`std::equal` of the test over the keys 0 to 999 is true. -/
theorem C20_comparison_forwards :
    (∀ (T : Type) (lt eq ne : T → T → Bool) (a b : named_type_value T),
      a.operator_lt lt b = lt a.value b.value ∧
      a.operator_eq eq b = eq a.value b.value ∧
      a.operator_ne ne b = ne a.value b.value) ∧
    (∀ (K V : Type) (lt : K → K → Bool) (entries : List (K × V)),
      (map_of (named_type_value.operator_lt lt)
          (entries.map (fun e => ((⟨e.1⟩ : named_type_value K), e.2)))).map
          (fun e => (e.1.value, e.2)) =
        map_of lt entries) ∧
    std_equal (fun (l : named_type_value ℤ × ℤ) (r : ℤ × ℤ) =>
        decide (l.1.operator_deref = r.1) && decide (l.2 = r.2))
      (map_of (named_type_value.operator_lt (fun a b : ℤ => decide (a < b)))
        (((List.range 1000).map (fun i => ((i : ℤ), (i : ℤ)))).map
          (fun e => ((⟨e.1⟩ : named_type_value ℤ), e.2))))
      (map_of (fun a b : ℤ => decide (a < b))
        ((List.range 1000).map (fun i => ((i : ℤ), (i : ℤ))))) = true := by
  refine ⟨fun _ _ _ _ _ _ => ⟨rfl, rfl, rfl⟩, ?_, ?_⟩
  · intro K V lt entries
    rw [map_of_wrapped, List.map_map]
    have h : ((fun e : named_type_value K × V => (e.1.value, e.2)) ∘
        fun e : K × V => ((⟨e.1⟩ : named_type_value K), e.2)) = id := by
      funext e
      rfl
    rw [h, List.map_id]
  · rw [map_of_wrapped]
    exact std_equal_wrapped _

/-! ## Claims on the two constructor templates and on other types -/

/-- C23: for every wrapper and every argument list (a Head and any Tail), the
two generic constructor templates are never both enabled; exactly one is when
is_construction_allowed_from holds for the list and none is otherwise; and the
one enabled is the implicit one if the wrapper carries AllowImplicitConstructors
and the explicit one if not, whatever the argument types and their number. -/
theorem C23_one_generic_constructor :
    ∀ (H : Host) (W : named_type) (Head : Ty) (Tail : List Ty),
      (W.generic_constructor_enabled H .implicit Head Tail &&
        W.generic_constructor_enabled H .explicit Head Tail) = false ∧
      (W.generic_constructor_enabled H .implicit Head Tail ||
        W.generic_constructor_enabled H .explicit Head Tail) =
          W.is_construction_allowed_from H Head Tail ∧
      W.generic_constructor_enabled H .implicit Head Tail =
        (decide (Mixin.AllowImplicitConstructors ∈ W.Mixins) &&
          W.is_construction_allowed_from H Head Tail) ∧
      W.generic_constructor_enabled H .explicit Head Tail =
        (!decide (Mixin.AllowImplicitConstructors ∈ W.Mixins) &&
          W.is_construction_allowed_from H Head Tail) := by
  intro H W Head Tail
  have hb : is_base_of_AllowImplicitConstructors_ W.Mixins =
      decide (Mixin.AllowImplicitConstructors ∈ W.Mixins) := by
    by_cases h : Mixin.AllowImplicitConstructors ∈ W.Mixins
    · rw [(is_base_of_AllowImplicitConstructors__iff W.Mixins).2 h]
      simp [h]
    · rw [is_base_of_AllowImplicitConstructors__eq_false W.Mixins h]
      simp [h]
  simp only [named_type.generic_constructor_enabled, named_type.is_constructor_implicit, hb]
  cases decide (Mixin.AllowImplicitConstructors ∈ W.Mixins) <;>
    cases W.is_construction_allowed_from H Head Tail <;> decide

/-- C24: when From or To is, references apart, a pointer or an enumeration
(an `other` type), the detector is false; so every wrapper, with or without
AllowNarrowingConversions, admits single-argument construction from such a
source exactly when its underlying type is constructible from it: a wrapper of
bool from `void*` and a wrapper of char from the unscoped enumeration My_enum
as the host has bool and char constructible from them. -/
theorem C24_pointers_and_enumerations :
    (∀ (H : Host) (From To : Ty) (n : Nat),
      From.obj = Obj.other n ∨ To.obj = Obj.other n →
      is_conversion_narrowing H From To = false) ∧
    (∀ (H : Host) (W : named_type) (Head : Ty) (n : Nat), Head.obj = Obj.other n →
      W.is_construction_allowed_from H Head [] =
        std_is_constructible H W.T.obj W.T.ref [Head]) ∧
    (∀ (H : Host) (Tag : Nat) (Mixins : List Mixin),
      named_type.is_construction_allowed_from H ⟨Fund.bool.ty, Tag, Mixins⟩
          tests.void_pointer [] =
        H.is_constructible Fund.bool.ty [tests.void_pointer] ∧
      named_type.is_construction_allowed_from H ⟨Fund.char.ty, Tag, Mixins⟩
          tests.My_enum [] =
        H.is_constructible Fund.char.ty [tests.My_enum]) := by
  have h1 : ∀ (H : Host) (From To : Ty) (n : Nat),
      From.obj = Obj.other n ∨ To.obj = Obj.other n →
      is_conversion_narrowing H From To = false := by
    intro H From To n h
    apply is_conversion_narrowing_of_not_fundamental
    rcases h with h | h <;> simp [is_fundamental, remove_reference, h]
  have h2 : ∀ (H : Host) (W : named_type) (Head : Ty) (n : Nat), Head.obj = Obj.other n →
      W.is_construction_allowed_from H Head [] =
        std_is_constructible H W.T.obj W.T.ref [Head] := by
    intro H W Head n h
    rw [named_type.is_construction_allowed_from, construction_allowed_single,
      h1 H Head W.T n (Or.inl h)]
    simp
  refine ⟨h1, h2, ?_⟩
  intro H Tag Mixins
  exact ⟨h2 H ⟨Fund.bool.ty, Tag, Mixins⟩ tests.void_pointer 101 rfl,
    h2 H ⟨Fund.char.ty, Tag, Mixins⟩ tests.My_enum 102 rfl⟩

theorem C24_pointers_and_enumerations_witness :
    (tests.My_enum.obj = Obj.other 102 ∨ Fund.char.ty.obj = Obj.other 102) ∧
    is_conversion_narrowing gcc tests.My_enum Fund.char.ty = false :=
  ⟨Or.inl rfl, C24_pointers_and_enumerations.1 gcc tests.My_enum Fund.char.ty 102 (Or.inl rfl)⟩

/-! ## Lemmas on hashing -/

theorem bucket_emplace_wrapped {K V : Type} (eq : K → K → Bool) (k : K) (v : V)
    (b : List (K × V)) :
    bucket_emplace (named_type_value.operator_eq eq) ⟨k⟩ v
        (b.map (fun e => ((⟨e.1⟩ : named_type_value K), e.2))) =
      (bucket_emplace eq k v b).map (fun e => ((⟨e.1⟩ : named_type_value K), e.2)) := by
  have h : (b.map (fun e => ((⟨e.1⟩ : named_type_value K), e.2))).any
      (fun e => named_type_value.operator_eq eq ⟨k⟩ e.1) = b.any (fun e => eq k e.1) := by
    induction b with
    | nil => rfl
    | cons e rest ih =>
      simp only [List.map_cons, List.any_cons, ih]
      rfl
  simp only [bucket_emplace, h]
  cases b.any (fun e => eq k e.1) <;> simp

theorem modify_bucket_map {E F : Type} (g : E → F) (f : List E → List E)
    (f' : List F → List F) (hf : ∀ b, f' (b.map g) = (f b).map g) (i : Nat)
    (bs : List (List E)) :
    modify_bucket f' i (bs.map (List.map g)) = (modify_bucket f i bs).map (List.map g) := by
  induction bs generalizing i with
  | nil => cases i <;> rfl
  | cons b rest ih =>
    cases i with
    | zero => simp [modify_bucket, hf]
    | succ j => simp [modify_bucket, ih]

theorem unordered_map_emplace_wrapped {K V : Type} (hash : K → Nat) (eq : K → K → Bool) (k : K)
    (v : V) (m : List (List (K × V))) :
    unordered_map_emplace (named_type_value.Hash hash) (named_type_value.operator_eq eq) ⟨k⟩ v
        (m.map (List.map (fun e => ((⟨e.1⟩ : named_type_value K), e.2)))) =
      (unordered_map_emplace hash eq k v m).map
        (List.map (fun e => ((⟨e.1⟩ : named_type_value K), e.2))) := by
  simp only [unordered_map_emplace, List.length_map, named_type_value.Hash,
    named_type_value.value]
  exact modify_bucket_map _ _ _ (bucket_emplace_wrapped eq k v) _ m

theorem unordered_map_of_wrapped_aux {K V : Type} (hash : K → Nat) (eq : K → K → Bool)
    (entries : List (K × V)) (m : List (List (K × V))) :
    (entries.map (fun e => ((⟨e.1⟩ : named_type_value K), e.2))).foldl
        (fun m e => unordered_map_emplace (named_type_value.Hash hash)
          (named_type_value.operator_eq eq) e.1 e.2 m)
        (m.map (List.map (fun e => ((⟨e.1⟩ : named_type_value K), e.2)))) =
      (entries.foldl (fun m e => unordered_map_emplace hash eq e.1 e.2 m) m).map
        (List.map (fun e => ((⟨e.1⟩ : named_type_value K), e.2))) := by
  induction entries generalizing m with
  | nil => rfl
  | cons e rest ih =>
    simp only [List.map_cons, List.foldl_cons]
    rw [unordered_map_emplace_wrapped, ih]

theorem unordered_map_of_wrapped {K V : Type} (hash : K → Nat) (eq : K → K → Bool) (n : Nat)
    (entries : List (K × V)) :
    unordered_map_of (named_type_value.Hash hash) (named_type_value.operator_eq eq) n
        (entries.map (fun e => ((⟨e.1⟩ : named_type_value K), e.2))) =
      (unordered_map_of hash eq n entries).map
        (List.map (fun e => ((⟨e.1⟩ : named_type_value K), e.2))) := by
  have h := unordered_map_of_wrapped_aux hash eq entries (List.replicate n [])
  simp only [List.map_replicate, List.map_nil] at h
  exact h

theorem unordered_map_find_wrapped {K V : Type} (hash : K → Nat) (eq : K → K → Bool) (k : K)
    (m : List (List (K × V))) :
    unordered_map_find (named_type_value.Hash hash) (named_type_value.operator_eq eq) ⟨k⟩
        (m.map (List.map (fun e => ((⟨e.1⟩ : named_type_value K), e.2)))) =
      (unordered_map_find hash eq k m).map (fun e => ((⟨e.1⟩ : named_type_value K), e.2)) := by
  simp only [unordered_map_find, List.length_map, named_type_value.Hash, named_type_value.value]
  have h := List.getD_map (List.map (fun e : K × V => ((⟨e.1⟩ : named_type_value K), e.2)))
    (l := m) (n := hash k % m.length) (d := [])
  simp only [List.map_nil] at h
  rw [h, List.find?_map]
  rfl

theorem unordered_map_elements_wrapped {E F : Type} (g : E → F) (m : List (List E)) :
    (m.map (List.map g)).foldr (fun b rest => b ++ rest) [] =
      (m.foldr (fun b rest => b ++ rest) []).map g := by
  induction m with
  | nil => rfl
  | cons b rest ih => simp only [List.map_cons, List.foldr_cons, ih, List.map_append]

/-! ## Claim on hashing -/

/-- C21: on a wrapper that carries Hashable, `Hash{}(w)` is `std::hash<T>{}` of
`w.value()`; so, std::hash<T> giving equal values what `==` of T holds equal, two
wrappers equal under `==` of EqualLessComparable have the same hash value; and
an unordered map keyed by the wrapper with Hash holds, after the same entries
are emplaced, the entries of the map keyed by the underlying values, bucket for
bucket and key for key, finds a wrapped key where that map finds the key, and
the `std::equal` of the test over the keys 0 to 999 is true. -/
theorem C21_hash_forwards :
    (∀ (T : Type) (hash : T → Nat) (w : named_type_value T), w.Hash hash = hash w.value) ∧
    (∀ (T : Type) (hash : T → Nat) (eq : T → T → Bool),
      (∀ x y : T, eq x y = true → hash x = hash y) →
      ∀ a b : named_type_value T, a.operator_eq eq b = true → a.Hash hash = b.Hash hash) ∧
    (∀ (K V : Type) (hash : K → Nat) (eq : K → K → Bool) (n : Nat) (entries : List (K × V)),
      unordered_map_of (named_type_value.Hash hash) (named_type_value.operator_eq eq) n
          (entries.map (fun e => ((⟨e.1⟩ : named_type_value K), e.2))) =
        (unordered_map_of hash eq n entries).map
          (List.map (fun e => ((⟨e.1⟩ : named_type_value K), e.2)))) ∧
    (∀ (K V : Type) (hash : K → Nat) (eq : K → K → Bool) (k : K) (m : List (List (K × V))),
      unordered_map_find (named_type_value.Hash hash) (named_type_value.operator_eq eq) ⟨k⟩
          (m.map (List.map (fun e => ((⟨e.1⟩ : named_type_value K), e.2)))) =
        (unordered_map_find hash eq k m).map
          (fun e => ((⟨e.1⟩ : named_type_value K), e.2))) ∧
    (∀ (hash : ℤ → Nat) (n : Nat),
      std_equal (fun (l : named_type_value ℤ × ℤ) (r : ℤ × ℤ) =>
          decide (l.1.operator_deref = r.1) && decide (l.2 = r.2))
        (unordered_map_elements
          (unordered_map_of (named_type_value.Hash hash)
            (named_type_value.operator_eq (fun a b : ℤ => decide (a = b))) n
            (((List.range 1000).map (fun i => ((i : ℤ), (i : ℤ)))).map
              (fun e => ((⟨e.1⟩ : named_type_value ℤ), e.2)))))
        (unordered_map_elements
          (unordered_map_of hash (fun a b : ℤ => decide (a = b)) n
            ((List.range 1000).map (fun i => ((i : ℤ), (i : ℤ)))))) = true) := by
  refine ⟨fun _ _ _ => rfl, ?_, ?_, ?_, ?_⟩
  · intro T hash eq h a b hab
    exact h a.value b.value hab
  · intro K V hash eq n entries
    exact unordered_map_of_wrapped hash eq n entries
  · intro K V hash eq k m
    exact unordered_map_find_wrapped hash eq k m
  · intro hash n
    rw [unordered_map_of_wrapped]
    simp only [unordered_map_elements]
    rw [unordered_map_elements_wrapped]
    exact std_equal_wrapped _

theorem C21_hash_forwards_witness :
    (∀ x y : ℤ, decide (x % 10 = y % 10) = true → (x % 10).toNat = (y % 10).toNat) ∧
    named_type_value.operator_eq (fun x y : ℤ => decide (x % 10 = y % 10)) ⟨3⟩ ⟨13⟩ = true ∧
    named_type_value.Hash (fun x : ℤ => (x % 10).toNat) ⟨3⟩ =
      named_type_value.Hash (fun x : ℤ => (x % 10).toNat) ⟨13⟩ :=
  ⟨fun x y h => by rw [of_decide_eq_true h], by decide,
    C21_hash_forwards.2.1 ℤ (fun x => (x % 10).toNat) (fun x y => decide (x % 10 = y % 10))
      (fun x y h => by simp only [of_decide_eq_true h]) ⟨3⟩ ⟨13⟩ (by decide)⟩

/-! ## Lemmas on a wrapper built or assigned from another wrapper -/

/-- A wrapper is constructible from a differently tagged wrapper exactly when
its underlying type is constructible from that wrapper, the detector flagging
no class type, or when the source is a wrapper over it that converts to it. -/
theorem constructible_from_foreign_wrapper (H : Host) (W S : named_type) (r : RefKind)
    (hTag : W.Tag ≠ S.Tag) :
    std_is_constructible H W.obj .none [⟨S.obj, r⟩] =
      (std_is_constructible H W.T.obj W.T.ref [deduce ⟨S.obj, r⟩] ||
        (has_conversion S.Mixins && decide (S.T.obj = W.obj) &&
          H.member_copy_constructible W.T)) := by
  obtain ⟨⟨o, q⟩, t, m⟩ := W
  obtain ⟨⟨o', q'⟩, t', m'⟩ := S
  simp only [named_type.obj] at hTag ⊢
  have hne : (Obj.named_type o' q' t' m' = Obj.named_type o q t m) = False := by
    simp only [Obj.named_type.injEq, eq_iff_iff, iff_false, not_and]
    intro _ _ h
    exact absurd h.symm hTag
  have hd : (deduce ⟨Obj.named_type o' q' t' m', r⟩).obj = Obj.named_type o' q' t' m' :=
    deduce_obj _
  have hn : is_conversion_narrowing H (deduce ⟨Obj.named_type o' q' t' m', r⟩) ⟨o, q⟩ = false := by
    apply is_conversion_narrowing_of_not_fundamental
    simp [is_fundamental, remove_reference, hd]
  simp only [std_is_constructible, construction_allowed_single, hn, hne, if_false]
  simp

/-- A wrapper is assignable from a differently tagged wrapper exactly when its
underlying type is assignable from that wrapper, or the wrapper carries
AllowImplicitConstructors, its underlying type is constructible from that
wrapper and the result is assigned, or the source is a wrapper over it that
converts to it. -/
theorem assignable_from_foreign_wrapper (H : Host) (W S : named_type) (r : RefKind)
    (hTag : W.Tag ≠ S.Tag) :
    std_is_assignable H W.obj ⟨S.obj, r⟩ =
      (std_is_assignable H W.T.obj (deduce ⟨S.obj, r⟩) ||
        (is_base_of_AllowImplicitConstructors_ W.Mixins &&
          std_is_constructible H W.T.obj W.T.ref [deduce ⟨S.obj, r⟩] &&
          (H.member_move_assignable W.T || H.member_copy_assignable W.T)) ||
        (has_conversion S.Mixins && decide (S.T.obj = W.obj) &&
          H.member_copy_assignable W.T)) := by
  obtain ⟨⟨o, q⟩, t, m⟩ := W
  obtain ⟨⟨o', q'⟩, t', m'⟩ := S
  simp only [named_type.obj] at hTag ⊢
  have hne : (Obj.named_type o' q' t' m' = Obj.named_type o q t m) = False := by
    simp only [Obj.named_type.injEq, eq_iff_iff, iff_false, not_and]
    intro _ _ h
    exact absurd h.symm hTag
  have hd : (deduce ⟨Obj.named_type o' q' t' m', r⟩).obj = Obj.named_type o' q' t' m' :=
    deduce_obj _
  have hn : is_conversion_narrowing H (deduce ⟨Obj.named_type o' q' t' m', r⟩) ⟨o, q⟩ = false := by
    apply is_conversion_narrowing_of_not_fundamental
    simp [is_fundamental, remove_reference, hd]
  simp only [std_is_assignable, assignment_allowed_eq, construction_allowed_single, hn, hne,
    if_false]
  simp [Bool.or_assoc]

/-- The type a forwarding reference deduces from a wrapper is the wrapper, with
or without an lvalue reference. -/
theorem deduce_wrapper (o : Obj) (r : RefKind) :
    deduce ⟨o, r⟩ = ⟨o, .lvalue⟩ ∨ deduce ⟨o, r⟩ = ⟨o, .none⟩ := by
  cases r <;> simp [deduce]

/-- No wrapper is its own underlying type. -/
theorem named_type.T_obj_ne_obj (W : named_type) : (decide (W.T.obj = W.obj)) = false := by
  simp only [named_type.obj, decide_eq_false_iff_not]
  exact Obj.ne_named_type_self _ _ _ _

/-- A wrapper is not constructible from a differently tagged wrapper over the
same type that the type itself is not constructible from. -/
theorem not_constructible_of_underlying (H : Host) (W S : named_type) (r : RefKind)
    (hT : S.T = W.T) (hTag : W.Tag ≠ S.Tag)
    (hc : ∀ q : RefKind, std_is_constructible H W.T.obj W.T.ref [⟨S.obj, q⟩] = false) :
    std_is_constructible H W.obj .none [⟨S.obj, r⟩] = false := by
  rw [constructible_from_foreign_wrapper H W S r hTag, hT, named_type.T_obj_ne_obj]
  rcases deduce_wrapper S.obj r with h | h <;> rw [h, hc] <;> simp

/-- Nor is it assignable from one that the type is neither constructible nor
assignable from. -/
theorem not_assignable_of_underlying (H : Host) (W S : named_type) (r : RefKind)
    (hT : S.T = W.T) (hTag : W.Tag ≠ S.Tag)
    (hc : ∀ q : RefKind, std_is_constructible H W.T.obj W.T.ref [⟨S.obj, q⟩] = false)
    (ha : ∀ q : RefKind, std_is_assignable H W.T.obj ⟨S.obj, q⟩ = false) :
    std_is_assignable H W.obj ⟨S.obj, r⟩ = false := by
  rw [assignable_from_foreign_wrapper H W S r hTag, hT, named_type.T_obj_ne_obj]
  rcases deduce_wrapper S.obj r with h | h <;> rw [h, hc, ha] <;> simp

/-! ## Claim on wrappers with different tags -/

/-- C8, amended: two wrappers declared over the identical type T with different
tags, where T itself is neither constructible nor assignable from either of
them, are not constructible and not assignable from one another, whether the
source is an lvalue or an rvalue.  A fundamental T is neither constructible nor
assignable from a wrapper over it that carries no conversion capability
(ImplicitConvertible, ExplicitConvertible); so two such wrappers over a
fundamental type reject one another. -/
theorem C8_distinct_tags_do_not_mix :
    (∀ (H : Host) (W₁ W₂ : named_type), W₁.T = W₂.T → W₁.Tag ≠ W₂.Tag →
      (∀ r : RefKind,
        std_is_constructible H W₁.T.obj W₁.T.ref [⟨W₁.obj, r⟩] = false ∧
        std_is_constructible H W₁.T.obj W₁.T.ref [⟨W₂.obj, r⟩] = false ∧
        std_is_assignable H W₁.T.obj ⟨W₁.obj, r⟩ = false ∧
        std_is_assignable H W₁.T.obj ⟨W₂.obj, r⟩ = false) →
      ∀ r : RefKind,
        std_is_constructible H W₁.obj .none [⟨W₂.obj, r⟩] = false ∧
        std_is_constructible H W₂.obj .none [⟨W₁.obj, r⟩] = false ∧
        std_is_assignable H W₁.obj ⟨W₂.obj, r⟩ = false ∧
        std_is_assignable H W₂.obj ⟨W₁.obj, r⟩ = false) ∧
    (∀ (H : Host) (f : Fund) (W : named_type) (r : RefKind), W.T = f.ty →
      Mixin.ImplicitConvertible ∉ W.Mixins ∧ Mixin.ExplicitConvertible ∉ W.Mixins →
      std_is_constructible H (.fund f) .none [⟨W.obj, r⟩] = false ∧
      std_is_assignable H (.fund f) ⟨W.obj, r⟩ = false) ∧
    (∀ (H : Host) (f : Fund) (W₁ W₂ : named_type), W₁.T = f.ty → W₂.T = f.ty →
      W₁.Tag ≠ W₂.Tag →
      Mixin.ImplicitConvertible ∉ W₁.Mixins ∧ Mixin.ExplicitConvertible ∉ W₁.Mixins →
      Mixin.ImplicitConvertible ∉ W₂.Mixins ∧ Mixin.ExplicitConvertible ∉ W₂.Mixins →
      ∀ r : RefKind,
        std_is_constructible H W₁.obj .none [⟨W₂.obj, r⟩] = false ∧
        std_is_constructible H W₂.obj .none [⟨W₁.obj, r⟩] = false ∧
        std_is_assignable H W₁.obj ⟨W₂.obj, r⟩ = false ∧
        std_is_assignable H W₂.obj ⟨W₁.obj, r⟩ = false) := by
  refine ⟨?_, ?_, ?_⟩
  · intro H W₁ W₂ hT hTag h r
    have h' : ∀ q : RefKind,
        std_is_constructible H W₂.T.obj W₂.T.ref [⟨W₁.obj, q⟩] = false ∧
        std_is_assignable H W₂.T.obj ⟨W₁.obj, q⟩ = false := by
      intro q
      rw [← hT]
      exact ⟨(h q).1, (h q).2.2.1⟩
    exact ⟨not_constructible_of_underlying H W₁ W₂ r hT.symm hTag (fun q => (h q).2.1),
      not_constructible_of_underlying H W₂ W₁ r hT (Ne.symm hTag) (fun q => (h' q).1),
      not_assignable_of_underlying H W₁ W₂ r hT.symm hTag (fun q => (h q).2.1)
        (fun q => (h q).2.2.2),
      not_assignable_of_underlying H W₂ W₁ r hT (Ne.symm hTag) (fun q => (h' q).1)
        (fun q => (h' q).2)⟩
  · intro H f W r hT hno
    have hc := has_conversion_eq_false W.Mixins hno
    simp [named_type.obj, hT, Fund.ty, std_is_constructible, std_is_assignable, hc]
  · intro H f W₁ W₂ hT₁ hT₂ hTag h₁ h₂ r
    simp only [named_type.obj, hT₁, hT₂, Fund.ty]
    exact ⟨not_constructible_from_other_wrapper H f f _ _ _ _ r hTag h₂,
      not_constructible_from_other_wrapper H f f _ _ _ _ r (Ne.symm hTag) h₁,
      not_assignable_from_other_wrapper H f f _ _ _ _ r hTag h₂,
      not_assignable_from_other_wrapper H f f _ _ _ _ r (Ne.symm hTag) h₁⟩

theorem C8_distinct_tags_do_not_mix_witness :
    tests.Int.T = tests.Int2.T ∧ tests.Int.Tag ≠ tests.Int2.Tag ∧
    (∀ r : RefKind,
      std_is_constructible gcc tests.Int.T.obj tests.Int.T.ref [⟨tests.Int.obj, r⟩] = false ∧
      std_is_constructible gcc tests.Int.T.obj tests.Int.T.ref [⟨tests.Int2.obj, r⟩] = false ∧
      std_is_assignable gcc tests.Int.T.obj ⟨tests.Int.obj, r⟩ = false ∧
      std_is_assignable gcc tests.Int.T.obj ⟨tests.Int2.obj, r⟩ = false) ∧
    std_is_constructible gcc tests.Int.obj .none [⟨tests.Int2.obj, .none⟩] = false ∧
    std_is_constructible gcc tests.Int2.obj .none [⟨tests.Int.obj, .none⟩] = false ∧
    std_is_assignable gcc tests.Int.obj ⟨tests.Int2.obj, .none⟩ = false ∧
    std_is_assignable gcc tests.Int2.obj ⟨tests.Int.obj, .none⟩ = false :=
  ⟨rfl, by decide, fun r => by cases r <;> decide,
    C8_distinct_tags_do_not_mix.1 gcc tests.Int tests.Int2 rfl (by decide)
      (fun r => by cases r <;> decide) .none⟩

/-! ## Lemmas on a type built from a wrapper -/

end ax.armor
